import Mathlib

/-!
# LcdDisplay (main/display/lcd_display.cc)

A shallow embedding of the LCD display driver glue: the two constructors
(`SpiLcdDisplay`, `RgbLcdDisplay`), the destructor, `Lock`, `Unlock`,
`SetupUI`, `SetEmotion` and `SetIcon`.

The file under study owns no algorithm of its own beyond a table lookup; what
it does is call the panel driver and the graphics toolkit in a certain order
with certain arguments.  The embedding therefore keeps

* the display object (`Display`): the members the methods read and assign;
* a small model of the toolkit (`Lvgl`): which widgets are alive, who their
  parent is, the next fresh handle and the depth of the recursive port lock;
* the chronological list of external calls (`Call`) every operation makes.

An operation is a function `World → α × World × List Call` (`Op α`): explicit
state passing plus the calls made, in order.

What the model takes for granted about the code it does not see:

* strings are byte strings; a literal of the source stands for its UTF-8 bytes;
* a widget handed out by `lv_obj_create` / `lv_label_create` has a handle not
  handed out before; `lv_obj_del` destroys a widget together with its
  descendants.  What `lv_display_delete` does to the screens of the display it
  removes is not followed: the widget list of the model is the list of widgets
  created and not yet reached by an `lv_obj_del`;
* the port lock is recursive and is granted whenever it is asked for (the
  model has one task);
* `DisplayLockGuard` and the base-class constructor come from headers that are
  not among the sources; see their definitions below.
-/

namespace LcdDisplay

/-! ## Strings -/

/-- A C string (`const char *`): the bytes in front of the terminating NUL. -/
abbrev CStr := List Nat

/-- UTF-8 encoding of one code point, byte by byte. -/
def utf8Char (c : Char) : List Nat :=
  let v := c.toNat
  if v < 0x80 then [v]
  else if v < 0x800 then [0xC0 + v / 64, 0x80 + v % 64]
  else if v < 0x10000 then [0xE0 + v / 4096, 0x80 + (v / 64) % 64, 0x80 + v % 64]
  else [0xF0 + v / 262144, 0x80 + (v / 4096) % 64, 0x80 + (v / 64) % 64, 0x80 + v % 64]

/-- The bytes of a string literal of the (UTF-8 encoded) source file. -/
def cstr (s : String) : CStr := s.data.flatMap utf8Char

/-! ## Handles, fonts and the constants of the toolkit -/

/-- A pointer-like handle (`lv_obj_t *`, `lv_display_t *`, panel handles);
`none` is `nullptr`. -/
abbrev Handle := Option Nat

/-- An `lv_font_t`, as far as this file looks into it. -/
structure Font where
  id : Nat
  line_height : Int
deriving DecidableEq, Repr

/-- The `DisplayFonts` triple handed to the constructors. -/
structure DisplayFonts where
  text_font : Font
  icon_font : Font
  emoji_font : Font
deriving DecidableEq, Repr

/-- Colours used by this file: `lv_color_white()` and `lv_color_black()`. -/
inductive Color
  | white
  | black
deriving DecidableEq, Repr

/-- Enumeration constants of the toolkit that appear as arguments. -/
inductive LvConst
  | LV_FLEX_FLOW_COLUMN
  | LV_FLEX_FLOW_ROW
  | LV_SCROLLBAR_MODE_OFF
  | LV_FLEX_ALIGN_CENTER
  | LV_FLEX_ALIGN_SPACE_EVENLY
  | LV_LABEL_LONG_WRAP
  | LV_LABEL_LONG_SCROLL_CIRCULAR
  | LV_TEXT_ALIGN_CENTER
  | LV_OBJ_FLAG_HIDDEN
  | LV_ALIGN_BOTTOM_MID
  | LV_COLOR_FORMAT_RGB565
deriving DecidableEq, Repr

/-- A length argument.  `LV_HOR_RES * 0.9` is a floating-point product that the
call converts back to an integer; it is kept as an expression. -/
inductive Len
  | exact (n : Int)
  | times0_9 (n : Int)
deriving DecidableEq, Repr

/-- Severity of a log line: `ESP_LOGI` and `ESP_LOGE`. -/
inductive LogLevel
  | info
  | error
deriving DecidableEq, Repr

/-- The `rotation` block of `lvgl_port_display_cfg_t`. -/
structure Rotation where
  swap_xy : Bool
  mirror_x : Bool
  mirror_y : Bool
deriving DecidableEq, Repr

/-- The `flags` block of `lvgl_port_display_cfg_t`.  A field the initialiser
leaves out is zero. -/
structure PortFlags where
  buff_dma : Nat
  buff_spiram : Nat
  sw_rotate : Nat
  swap_bytes : Nat
  full_refresh : Nat
  direct_mode : Nat
deriving DecidableEq, Repr

/-- The configuration `lvgl_port_display_cfg_t` as the constructors fill it.
`color_format = none` is a field left zero-initialised. -/
structure DisplayCfg where
  io_handle : Handle
  panel_handle : Handle
  buffer_size : Nat
  double_buffer : Bool
  trans_size : Nat
  hres : Nat
  vres : Nat
  monochrome : Bool
  rotation : Rotation
  color_format : Option LvConst
  flags : PortFlags
deriving DecidableEq, Repr

/-- The `flags` of `lvgl_port_display_rgb_cfg_t`. -/
structure RgbCfg where
  bb_mode : Bool
  avoid_tearing : Bool
deriving DecidableEq, Repr

/-! ## External calls -/

/-- One call that leaves this file: panel driver, logging, toolkit port and
toolkit widget API.  `abort` is the failing branch of `ESP_ERROR_CHECK`. -/
inductive Call
  | esp_lcd_panel_draw_bitmap (panel : Handle) (x_start y_start x_end y_end : Int)
      (color_data : List Nat)
  | esp_log (level : LogLevel) (msg : String)
  | esp_lcd_panel_disp_on_off (panel : Handle) (on_off : Bool)
  | abort
  | lv_init
  | lvgl_port_init (task_priority : Int)
  | lvgl_port_add_disp (cfg : DisplayCfg)
  | lvgl_port_add_disp_rgb (cfg : DisplayCfg) (rgb : RgbCfg)
  | lv_display_set_offset (disp : Handle) (x y : Int)
  | lvgl_port_lock (timeout_ms : Int)
  | lvgl_port_unlock
  | lv_screen_active
  | lv_obj_create (parent : Handle)
  | lv_label_create (parent : Handle)
  | lv_obj_set_style_text_font (obj : Handle) (font : Font) (selector : Nat)
  | lv_obj_set_style_text_color (obj : Handle) (color : Color) (selector : Nat)
  | lv_obj_set_style_bg_color (obj : Handle) (color : Color) (selector : Nat)
  | lv_obj_set_style_pad_all (obj : Handle) (value : Int) (selector : Nat)
  | lv_obj_set_style_border_width (obj : Handle) (value : Int) (selector : Nat)
  | lv_obj_set_style_pad_row (obj : Handle) (value : Int) (selector : Nat)
  | lv_obj_set_style_pad_column (obj : Handle) (value : Int) (selector : Nat)
  | lv_obj_set_style_pad_left (obj : Handle) (value : Int) (selector : Nat)
  | lv_obj_set_style_pad_right (obj : Handle) (value : Int) (selector : Nat)
  | lv_obj_set_style_radius (obj : Handle) (value : Int) (selector : Nat)
  | lv_obj_set_style_text_align (obj : Handle) (align : LvConst) (selector : Nat)
  | lv_obj_set_size (obj : Handle) (w h : Len)
  | lv_obj_set_width (obj : Handle) (w : Len)
  | lv_obj_set_flex_flow (obj : Handle) (flow : LvConst)
  | lv_obj_set_flex_grow (obj : Handle) (grow : Nat)
  | lv_obj_set_flex_align (obj : Handle) (main cross track : LvConst)
  | lv_obj_set_scrollbar_mode (obj : Handle) (mode : LvConst)
  | lv_label_set_text (obj : Handle) (text : CStr)
  | lv_label_set_long_mode (obj : Handle) (mode : LvConst)
  | lv_obj_add_flag (obj : Handle) (flag : LvConst)
  | lv_obj_align (obj : Handle) (align : LvConst) (x_ofs y_ofs : Int)
  | lv_obj_center (obj : Handle)
  | lv_obj_del (obj : Handle)
  | lv_display_delete (disp : Handle)
  | esp_lcd_panel_del (panel : Handle)
  | esp_lcd_panel_io_del (io : Handle)
deriving DecidableEq, Repr

/-! ## The toolkit model -/

/-- A live widget: its handle and the widget it was created under. -/
structure Obj where
  handle : Nat
  parent : Handle
deriving DecidableEq, Repr

/-- What the model keeps of the toolkit: the active screen, the widgets created
and not yet deleted through `lv_obj_del`, in creation order, the next fresh
handle and the depth of the (recursive) port lock. -/
structure Lvgl where
  screen : Handle
  objs : List Obj
  next : Nat
  lockDepth : Nat
deriving DecidableEq, Repr

/-- Handles that go away with `root`: `root` itself and, scanning the widgets
in creation order, every widget whose parent is already going away. -/
def doomed (root : Nat) : List Obj → List Nat → List Nat
  | [], acc => acc
  | o :: os, acc =>
    if o.handle = root ∨ (∃ p ∈ acc, o.parent = some p) then doomed root os (acc ++ [o.handle])
    else doomed root os acc

/-- Deleting a widget destroys it together with its descendants. -/
def delTree (h : Handle) (objs : List Obj) : List Obj :=
  match h with
  | none => objs
  | some root => objs.filter (fun o => decide (o.handle ∉ doomed root objs [root]))

/-- Effect of one call on the toolkit model.  Widgets come to life in
`lv_obj_create` / `lv_label_create` and are struck off by `lv_obj_del`.  The
model does not follow displays: `lv_display_delete` leaves the widget list as
it is, whatever the toolkit does to the screens of the display. -/
def Lvgl.step (tk : Lvgl) : Call → Lvgl
  | .lvgl_port_lock _ => { tk with lockDepth := tk.lockDepth + 1 }
  | .lvgl_port_unlock => { tk with lockDepth := tk.lockDepth - 1 }
  | .lv_obj_create p => { tk with objs := tk.objs ++ [⟨tk.next, p⟩], next := tk.next + 1 }
  | .lv_label_create p => { tk with objs := tk.objs ++ [⟨tk.next, p⟩], next := tk.next + 1 }
  | .lv_obj_del h => { tk with objs := delTree h tk.objs }
  | _ => tk

/-- Whether the widget behind a handle was created and has not been reached by
an `lv_obj_del` since. -/
def Lvgl.alive (tk : Lvgl) (h : Handle) : Bool :=
  match h with
  | none => false
  | some n => tk.objs.any (fun o => o.handle == n)

/-! ## The display object and the world -/

/-- The members of `LcdDisplay` (with those inherited from `Display`) that this
file reads or assigns. -/
structure Display where
  width_ : Int
  height_ : Int
  panel_io_ : Handle
  panel_ : Handle
  display_ : Handle
  container_ : Handle
  status_bar_ : Handle
  side_bar_ : Handle
  content_ : Handle
  emotion_label_ : Handle
  chat_message_label_ : Handle
  network_label_ : Handle
  notification_label_ : Handle
  status_label_ : Handle
  mute_label_ : Handle
  battery_label_ : Handle
  low_battery_popup_ : Handle
  fonts_ : DisplayFonts
deriving DecidableEq, Repr

/-- Things this file takes from elsewhere: declared fonts and strings, the
resolution macros, and what the environment answers to the two calls whose
result the constructors test. -/
structure Extern where
  font_awesome_30_4 : Font
  FONT_AWESOME_AI_CHIP : CStr
  INITIALIZING : CStr
  BATTERY_NEED_CHARGE : CStr
  LV_HOR_RES : Int
  LV_VER_RES : Int
  /-- `esp_lcd_panel_disp_on_off` returns `ESP_OK`. -/
  dispOnOffOk : Bool
  /-- What `lvgl_port_add_disp` / `lvgl_port_add_disp_rgb` returns. -/
  addDispResult : Handle
  /-- The timeout `DisplayLockGuard` passes to `Lock`. -/
  guardTimeoutMs : Int
deriving DecidableEq, Repr

/-- The display object together with the toolkit. -/
structure World where
  d : Display
  tk : Lvgl
deriving DecidableEq, Repr

/-- An operation: explicit state passing, plus the external calls made, in
chronological order. -/
def Op (α : Type) : Type := World → α × World × List Call

/-- The calls an operation makes from a given world. -/
def Op.calls {α : Type} (m : Op α) (w : World) : List Call := (m w).2.2

/-- The world an operation leaves. -/
def Op.final {α : Type} (m : Op α) (w : World) : World := (m w).2.1

/-- The value an operation returns. -/
def Op.value {α : Type} (m : Op α) (w : World) : α := (m w).1

/-- Sequencing: run `m`, then `f` on its result; the calls are concatenated. -/
@[noinline] def Op.bind {α β : Type} (m : Op α) (f : α → Op β) : Op β := fun w =>
  match m w with
  | (a, w₁, cs₁) =>
    match f a w₁ with
    | (b, w₂, cs₂) => (b, w₂, cs₁ ++ cs₂)

instance : Monad Op where
  pure a := fun w => (a, w, [])
  bind := Op.bind

/-- Make an external call and let the toolkit model react to it. -/
def call (c : Call) : Op Unit := fun w => ((), { w with tk := w.tk.step c }, [c])

/-- Read the display object. -/
def getD : Op Display := fun w => (w.d, w, [])

/-- Assign members of the display object. -/
def setD (f : Display → Display) : Op Unit := fun w => ((), { w with d := f w.d }, [])

/-- `lv_screen_active()`. -/
def lv_screen_active : Op Handle := fun w => (w.tk.screen, w, [Call.lv_screen_active])

/-- `lv_obj_create(parent)`: a fresh widget. -/
def lv_obj_create (parent : Handle) : Op Handle := fun w =>
  (some w.tk.next, { w with tk := w.tk.step (.lv_obj_create parent) }, [Call.lv_obj_create parent])

/-- `lv_label_create(parent)`: a fresh label. -/
def lv_label_create (parent : Handle) : Op Handle := fun w =>
  (some w.tk.next, { w with tk := w.tk.step (.lv_label_create parent) },
    [Call.lv_label_create parent])

/-! ## Lock, Unlock and the lock guard -/

/-- `lvgl_port_lock(timeout_ms)`.  The model has no second task that could hold
the lock, so the lock is granted whenever it is asked for. -/
def lvgl_port_lock (timeout_ms : Int) : Op Bool := fun w =>
  (true, { w with tk := w.tk.step (.lvgl_port_lock timeout_ms) },
    [Call.lvgl_port_lock timeout_ms])

/-- `LcdDisplay::Lock`: forwards to `lvgl_port_lock`. -/
def Lock (timeout_ms : Int) : Op Bool := lvgl_port_lock timeout_ms

/-- `LcdDisplay::Unlock`: forwards to `lvgl_port_unlock`. -/
def Unlock : Op Unit := call .lvgl_port_unlock

/-- Modelled from the spec: `DisplayLockGuard` (declared in display.h, which is
not among the sources).  The spec has callers hold the advisory lock for the
duration of a widget mutation and release it on every exit path: the guard
takes the lock through `Lock` where it is declared and gives it back through
`Unlock` when the enclosing function is left, whichever `return` leaves it. -/
def DisplayLockGuard {α : Type} (x : Extern) (body : Op α) : Op α := do
  let _ ← Lock x.guardTimeoutMs
  let r ← body
  Unlock
  pure r

/-! ## SetEmotion and SetIcon -/

/-- The local `struct Emotion` of `SetEmotion`. -/
structure Emotion where
  icon : CStr
  text : CStr
deriving DecidableEq, Repr

/-- The static table of `SetEmotion`. -/
def emotions : List Emotion := [
  ⟨cstr "😶", cstr "neutral"⟩,
  ⟨cstr "🙂", cstr "happy"⟩,
  ⟨cstr "😆", cstr "laughing"⟩,
  ⟨cstr "😂", cstr "funny"⟩,
  ⟨cstr "😔", cstr "sad"⟩,
  ⟨cstr "😠", cstr "angry"⟩,
  ⟨cstr "😭", cstr "crying"⟩,
  ⟨cstr "😍", cstr "loving"⟩,
  ⟨cstr "😳", cstr "embarrassed"⟩,
  ⟨cstr "😯", cstr "surprised"⟩,
  ⟨cstr "😱", cstr "shocked"⟩,
  ⟨cstr "🤔", cstr "thinking"⟩,
  ⟨cstr "😉", cstr "winking"⟩,
  ⟨cstr "😎", cstr "cool"⟩,
  ⟨cstr "😌", cstr "relaxed"⟩,
  ⟨cstr "🤤", cstr "delicious"⟩,
  ⟨cstr "😘", cstr "kissy"⟩,
  ⟨cstr "😏", cstr "confident"⟩,
  ⟨cstr "😴", cstr "sleepy"⟩,
  ⟨cstr "😜", cstr "silly"⟩,
  ⟨cstr "🙄", cstr "confused"⟩]

/-- `LcdDisplay::SetEmotion(emotion)` for a non-null `emotion` (building a
`std::string_view` from a null pointer is undefined).  `std::find_if` returns
the first entry whose text equals the argument. -/
def SetEmotion (x : Extern) (emotion : CStr) : Op Unit :=
  let emotion_view := emotion
  let it := emotions.find? (fun e => decide (e.text = emotion_view))
  DisplayLockGuard x do
    let d ← getD
    if d.emotion_label_ = none then
      pure ()
    else
      call (.lv_obj_set_style_text_font d.emotion_label_ d.fonts_.emoji_font 0)
      match it with
      | some e => call (.lv_label_set_text d.emotion_label_ e.icon)
      | none => call (.lv_label_set_text d.emotion_label_ (cstr "😶"))

/-- `LcdDisplay::SetIcon(icon)`. -/
def SetIcon (x : Extern) (icon : CStr) : Op Unit :=
  DisplayLockGuard x do
    let d ← getD
    if d.emotion_label_ = none then
      pure ()
    else
      call (.lv_obj_set_style_text_font d.emotion_label_ x.font_awesome_30_4 0)
      call (.lv_label_set_text d.emotion_label_ icon)

/-! ## SetupUI -/

/-- `LcdDisplay::SetupUI()`. -/
def SetupUI (x : Extern) : Op Unit :=
  DisplayLockGuard x do
    let fonts_ := (← getD).fonts_
    let screen ← lv_screen_active
    call (.lv_obj_set_style_text_font screen fonts_.text_font 0)
    call (.lv_obj_set_style_text_color screen .white 0)
    call (.lv_obj_set_style_bg_color screen .black 0)
    -- container
    let container_ ← lv_obj_create screen
    setD (fun d => { d with container_ := container_ })
    call (.lv_obj_set_size container_ (.exact x.LV_HOR_RES) (.exact x.LV_VER_RES))
    call (.lv_obj_set_flex_flow container_ .LV_FLEX_FLOW_COLUMN)
    call (.lv_obj_set_style_pad_all container_ 0 0)
    call (.lv_obj_set_style_border_width container_ 0 0)
    call (.lv_obj_set_style_pad_row container_ 0 0)
    -- status bar
    let status_bar_ ← lv_obj_create container_
    setD (fun d => { d with status_bar_ := status_bar_ })
    call (.lv_obj_set_size status_bar_ (.exact x.LV_HOR_RES) (.exact fonts_.text_font.line_height))
    call (.lv_obj_set_style_radius status_bar_ 0 0)
    call (.lv_obj_set_style_bg_color status_bar_ .black 0)
    call (.lv_obj_set_style_text_color status_bar_ .white 0)
    -- content area
    let content_ ← lv_obj_create container_
    setD (fun d => { d with content_ := content_ })
    call (.lv_obj_set_scrollbar_mode content_ .LV_SCROLLBAR_MODE_OFF)
    call (.lv_obj_set_style_radius content_ 0 0)
    call (.lv_obj_set_width content_ (.exact x.LV_HOR_RES))
    call (.lv_obj_set_flex_grow content_ 1)
    call (.lv_obj_set_style_bg_color content_ .black 0)
    call (.lv_obj_set_flex_flow content_ .LV_FLEX_FLOW_COLUMN)
    call (.lv_obj_set_flex_align content_ .LV_FLEX_ALIGN_CENTER .LV_FLEX_ALIGN_CENTER
      .LV_FLEX_ALIGN_SPACE_EVENLY)
    -- emotion label
    let emotion_label_ ← lv_label_create content_
    setD (fun d => { d with emotion_label_ := emotion_label_ })
    call (.lv_obj_set_style_text_font emotion_label_ x.font_awesome_30_4 0)
    call (.lv_label_set_text emotion_label_ x.FONT_AWESOME_AI_CHIP)
    call (.lv_obj_set_style_text_color emotion_label_ .white 0)
    -- chat message label
    let chat_message_label_ ← lv_label_create content_
    setD (fun d => { d with chat_message_label_ := chat_message_label_ })
    call (.lv_label_set_text chat_message_label_ (cstr ""))
    call (.lv_obj_set_width chat_message_label_ (.times0_9 x.LV_HOR_RES))
    call (.lv_label_set_long_mode chat_message_label_ .LV_LABEL_LONG_WRAP)
    call (.lv_obj_set_style_text_align chat_message_label_ .LV_TEXT_ALIGN_CENTER 0)
    call (.lv_obj_set_style_text_color chat_message_label_ .white 0)
    -- status bar layout
    call (.lv_obj_set_flex_flow status_bar_ .LV_FLEX_FLOW_ROW)
    call (.lv_obj_set_style_pad_all status_bar_ 0 0)
    call (.lv_obj_set_style_border_width status_bar_ 0 0)
    call (.lv_obj_set_style_pad_column status_bar_ 0 0)
    call (.lv_obj_set_style_pad_left status_bar_ 2 0)
    call (.lv_obj_set_style_pad_right status_bar_ 2 0)
    -- network label
    let network_label_ ← lv_label_create status_bar_
    setD (fun d => { d with network_label_ := network_label_ })
    call (.lv_label_set_text network_label_ (cstr ""))
    call (.lv_obj_set_style_text_font network_label_ fonts_.icon_font 0)
    call (.lv_obj_set_style_text_color network_label_ .white 0)
    -- notification label
    let notification_label_ ← lv_label_create status_bar_
    setD (fun d => { d with notification_label_ := notification_label_ })
    call (.lv_obj_set_flex_grow notification_label_ 1)
    call (.lv_obj_set_style_text_align notification_label_ .LV_TEXT_ALIGN_CENTER 0)
    call (.lv_label_set_text notification_label_ (cstr ""))
    call (.lv_obj_add_flag notification_label_ .LV_OBJ_FLAG_HIDDEN)
    call (.lv_obj_set_style_text_color notification_label_ .white 0)
    -- status label
    let status_label_ ← lv_label_create status_bar_
    setD (fun d => { d with status_label_ := status_label_ })
    call (.lv_obj_set_flex_grow status_label_ 1)
    call (.lv_label_set_long_mode status_label_ .LV_LABEL_LONG_SCROLL_CIRCULAR)
    call (.lv_obj_set_style_text_align status_label_ .LV_TEXT_ALIGN_CENTER 0)
    call (.lv_label_set_text status_label_ x.INITIALIZING)
    call (.lv_obj_set_style_text_color status_label_ .white 0)
    -- mute label
    let mute_label_ ← lv_label_create status_bar_
    setD (fun d => { d with mute_label_ := mute_label_ })
    call (.lv_label_set_text mute_label_ (cstr ""))
    call (.lv_obj_set_style_text_font mute_label_ fonts_.icon_font 0)
    call (.lv_obj_set_style_text_color mute_label_ .white 0)
    -- battery label
    let battery_label_ ← lv_label_create status_bar_
    setD (fun d => { d with battery_label_ := battery_label_ })
    call (.lv_label_set_text battery_label_ (cstr ""))
    call (.lv_obj_set_style_text_font battery_label_ fonts_.icon_font 0)
    call (.lv_obj_set_style_text_color battery_label_ .white 0)
    -- low battery popup
    let low_battery_popup_ ← lv_obj_create screen
    setD (fun d => { d with low_battery_popup_ := low_battery_popup_ })
    call (.lv_obj_set_scrollbar_mode low_battery_popup_ .LV_SCROLLBAR_MODE_OFF)
    call (.lv_obj_set_size low_battery_popup_ (.times0_9 x.LV_HOR_RES)
      (.exact (fonts_.text_font.line_height * 2)))
    call (.lv_obj_align low_battery_popup_ .LV_ALIGN_BOTTOM_MID 0 0)
    call (.lv_obj_set_style_bg_color low_battery_popup_ .white 0)
    call (.lv_obj_set_style_radius low_battery_popup_ 10 0)
    let low_battery_label ← lv_label_create low_battery_popup_
    call (.lv_label_set_text low_battery_label x.BATTERY_NEED_CHARGE)
    call (.lv_obj_set_style_text_color low_battery_label .black 0)
    call (.lv_obj_center low_battery_label)
    call (.lv_obj_add_flag low_battery_popup_ .LV_OBJ_FLAG_HIDDEN)

/-! ## The destructor -/

/-- One step of the destructor: `if (h != nullptr) { c(h); }`. -/
def whenNonNull (h : Handle) (c : Handle → Call) : Op Unit :=
  if h ≠ none then call (c h) else pure ()

/-- `LcdDisplay::~LcdDisplay()`. -/
def destroy : Op Unit := do
  let d ← getD
  whenNonNull d.content_ .lv_obj_del
  whenNonNull d.status_bar_ .lv_obj_del
  whenNonNull d.side_bar_ .lv_obj_del
  whenNonNull d.container_ .lv_obj_del
  whenNonNull d.display_ .lv_display_delete
  whenNonNull d.panel_ .esp_lcd_panel_del
  whenNonNull d.panel_io_ .esp_lcd_panel_io_del

/-! ## The constructors -/

/-- How a constructor ends: it returns, or the program is terminated
(`ESP_ERROR_CHECK` on a failed call, or a vector that cannot be allocated). -/
inductive Exit
  | returned
  | aborted
deriving DecidableEq, Repr

/-- The arguments the two constructors share. -/
structure Args where
  panel_io : Handle
  panel : Handle
  width : Int
  height : Int
  offset_x : Int
  offset_y : Int
  mirror_x : Bool
  mirror_y : Bool
  swap_xy : Bool
  fonts : DisplayFonts
deriving DecidableEq, Repr

/-- The base-class constructor `LcdDisplay(panel_io, panel, fonts)` of the
member-initialiser list.  Its body is in lcd_display.h, which is not among the
sources; it is taken to store its three arguments in `panel_io_`, `panel_` and
`fonts_`, the members the constructor bodies read back. -/
def LcdDisplayBase (panel_io panel : Handle) (fonts : DisplayFonts) : Op Unit :=
  setD (fun d => { d with panel_io_ := panel_io, panel_ := panel, fonts_ := fonts })

/-- `static_cast<uint32_t>` of an `int`. -/
def toU32 (n : Int) : Nat := (n % 4294967296).toNat

/-- Emit a list of calls in order. -/
def callAll : List Call → Op Unit
  | [] => pure ()
  | c :: cs => do call c; callAll cs

/-- The clearing loop of both constructors:
`for (int y = 0; y < height_; y++) esp_lcd_panel_draw_bitmap(panel_, 0, y, width_, y + 1, buffer.data())`
over a `buffer` given as the list of its pixels. -/
def clearRows (panel : Handle) (width height : Int) (buffer : List Nat) : List Call :=
  (List.range height.toNat).map (fun (y : Nat) =>
    Call.esp_lcd_panel_draw_bitmap panel 0 (y : Int) width ((y : Int) + 1) buffer)

/-- `esp_lcd_panel_disp_on_off(panel, on_off)`; the result says whether it
returned `ESP_OK`. -/
def esp_lcd_panel_disp_on_off (x : Extern) (panel : Handle) (on_off : Bool) : Op Bool :=
  fun w => (x.dispOnOffOk, w, [Call.esp_lcd_panel_disp_on_off panel on_off])

/-- `lvgl_port_add_disp(&cfg)`. -/
def lvgl_port_add_disp (x : Extern) (cfg : DisplayCfg) : Op Handle :=
  fun w => (x.addDispResult, w, [Call.lvgl_port_add_disp cfg])

/-- `lvgl_port_add_disp_rgb(&cfg, &rgb_cfg)`. -/
def lvgl_port_add_disp_rgb (x : Extern) (cfg : DisplayCfg) (rgb : RgbCfg) : Op Handle :=
  fun w => (x.addDispResult, w, [Call.lvgl_port_add_disp_rgb cfg rgb])

/-- The local `display_cfg` of the SPI constructor: single buffer, RGB565,
bytes swapped. -/
def spiDisplayCfg (d : Display) (swap_xy mirror_x mirror_y : Bool) : DisplayCfg :=
  { io_handle := d.panel_io_
    panel_handle := d.panel_
    buffer_size := toU32 (d.width_ * 10)
    double_buffer := false
    trans_size := 0
    hres := toU32 d.width_
    vres := toU32 d.height_
    monochrome := false
    rotation := { swap_xy := swap_xy, mirror_x := mirror_x, mirror_y := mirror_y }
    color_format := some .LV_COLOR_FORMAT_RGB565
    flags := { buff_dma := 1, buff_spiram := 0, sw_rotate := 0, swap_bytes := 1,
               full_refresh := 0, direct_mode := 0 } }

/-- The local `display_cfg` of the RGB constructor: double buffer, full refresh
in direct mode; `trans_size`, `monochrome`, `color_format`, `buff_spiram` and
`sw_rotate` are left out of the initialiser and so are zero. -/
def rgbDisplayCfg (d : Display) (swap_xy mirror_x mirror_y : Bool) : DisplayCfg :=
  { io_handle := d.panel_io_
    panel_handle := d.panel_
    buffer_size := toU32 (d.width_ * 10)
    double_buffer := true
    trans_size := 0
    hres := toU32 d.width_
    vres := toU32 d.height_
    monochrome := false
    rotation := { swap_xy := swap_xy, mirror_x := mirror_x, mirror_y := mirror_y }
    color_format := none
    flags := { buff_dma := 1, buff_spiram := 0, sw_rotate := 0, swap_bytes := 0,
               full_refresh := 1, direct_mode := 1 } }

/-- `SpiLcdDisplay::SpiLcdDisplay(panel_io, panel, width, height, offset_x,
offset_y, mirror_x, mirror_y, swap_xy, fonts)`.

`std::vector<uint16_t> buffer(width_, 0x0000)` with a negative `width_` asks
for more elements than a vector can hold and never returns.  The product
`width_ * 10` is taken modulo `2^32` by the cast. -/
def SpiLcdDisplay (x : Extern) (a : Args) : Op Exit := do
  LcdDisplayBase a.panel_io a.panel a.fonts
  setD (fun d => { d with width_ := a.width, height_ := a.height })
  let d ← getD
  if d.width_ < 0 then
    pure .aborted
  else
    let buffer : List Nat := List.replicate d.width_.toNat 0x0000
    callAll (clearRows d.panel_ d.width_ d.height_ buffer)
    call (.esp_log .info "Turning display on")
    let ok ← esp_lcd_panel_disp_on_off x d.panel_ true
    if ok = false then
      call .abort
      pure .aborted
    else
      call (.esp_log .info "Initialize LVGL library")
      call .lv_init
      call (.esp_log .info "Initialize LVGL port")
      call (.lvgl_port_init 1)
      call (.esp_log .info "Adding LCD screen")
      let display_cfg := spiDisplayCfg d a.swap_xy a.mirror_x a.mirror_y
      let display_ ← lvgl_port_add_disp x display_cfg
      setD (fun d => { d with display_ := display_ })
      if display_ = none then
        call (.esp_log .error "Failed to add display")
        pure .returned
      else
        if a.offset_x ≠ 0 ∨ a.offset_y ≠ 0 then
          call (.lv_display_set_offset display_ a.offset_x a.offset_y)
        SetupUI x
        pure .returned

/-- `RgbLcdDisplay::RgbLcdDisplay(panel_io, panel, width, height, offset_x,
offset_y, mirror_x, mirror_y, swap_xy, fonts)`.  The vector and the cast are as
in `SpiLcdDisplay`. -/
def RgbLcdDisplay (x : Extern) (a : Args) : Op Exit := do
  LcdDisplayBase a.panel_io a.panel a.fonts
  setD (fun d => { d with width_ := a.width, height_ := a.height })
  let d ← getD
  if d.width_ < 0 then
    pure .aborted
  else
    let buffer : List Nat := List.replicate d.width_.toNat 0x0000
    callAll (clearRows d.panel_ d.width_ d.height_ buffer)
    call (.esp_log .info "Initialize LVGL library")
    call .lv_init
    call (.esp_log .info "Initialize LVGL port")
    call (.lvgl_port_init 1)
    call (.esp_log .info "Adding LCD screen")
    let display_cfg := rgbDisplayCfg d a.swap_xy a.mirror_x a.mirror_y
    let rgb_cfg : RgbCfg := { bb_mode := true, avoid_tearing := true }
    let display_ ← lvgl_port_add_disp_rgb x display_cfg rgb_cfg
    setD (fun d => { d with display_ := display_ })
    if display_ = none then
      call (.esp_log .error "Failed to add RGB display")
      pure .returned
    else
      if a.offset_x ≠ 0 ∨ a.offset_y ≠ 0 then
        call (.lv_display_set_offset display_ a.offset_x a.offset_y)
      SetupUI x
      pure .returned

/-! ## Sample data -/

/-- Fonts for the worked examples. -/
def sampleFonts : DisplayFonts :=
  { text_font := ⟨1, 16⟩, icon_font := ⟨2, 16⟩, emoji_font := ⟨3, 32⟩ }

/-- An environment for the worked examples: both tested calls succeed. -/
def sampleExtern : Extern :=
  { font_awesome_30_4 := ⟨4, 30⟩
    FONT_AWESOME_AI_CHIP := [0xEF, 0x8B, 0x9B]
    INITIALIZING := cstr "Initializing..."
    BATTERY_NEED_CHARGE := cstr "Low battery, please charge"
    LV_HOR_RES := 240
    LV_VER_RES := 240
    dispOnOffOk := true
    addDispResult := some 200
    guardTimeoutMs := 3000 }

/-- A display object with every handle null. -/
def blankDisplay : Display :=
  { width_ := 0, height_ := 0, panel_io_ := none, panel_ := none, display_ := none,
    container_ := none, status_bar_ := none, side_bar_ := none, content_ := none,
    emotion_label_ := none, chat_message_label_ := none, network_label_ := none,
    notification_label_ := none, status_label_ := none, mute_label_ := none,
    battery_label_ := none, low_battery_popup_ := none, fonts_ := sampleFonts }

/-- A toolkit holding only its screen (handle 1), lock free. -/
def freshLvgl : Lvgl :=
  { screen := some 1, objs := [⟨1, none⟩], next := 2, lockDepth := 0 }

/-- The world before a constructor runs. -/
def freshWorld : World := { d := blankDisplay, tk := freshLvgl }

/-- Arguments for the worked examples: a 2 x 2 panel. -/
def sampleArgs : Args :=
  { panel_io := some 100, panel := some 101, width := 2, height := 2, offset_x := 0,
    offset_y := 0, mirror_x := false, mirror_y := false, swap_xy := false,
    fonts := sampleFonts }

/-- The world the SPI constructor leaves on the sample arguments: `SetupUI` has
run and every widget handle is set. -/
def builtWorld : World := (SpiLcdDisplay sampleExtern sampleArgs).final freshWorld

/-- An environment in which the display-add call returns null. -/
def failingExtern : Extern := { sampleExtern with addDispResult := none }

/-! ## Observations on call lists -/

/-- The text a label shows after a run of calls: the argument of the last
`lv_label_set_text` on it, if there was one. -/
def shownText (h : Handle) (cs : List Call) : Option CStr :=
  cs.foldl (fun acc c =>
    match c with
    | .lv_label_set_text o t => if o = h then some t else acc
    | _ => acc) none

/-- The glyph `SetEmotion` hands to `lv_label_set_text`: the icon of the first
entry whose text matches, else the literal of the `else` branch. -/
def chosenIcon (emotion : CStr) : CStr :=
  match emotions.find? (fun e => decide (e.text = emotion)) with
  | some e => e.icon
  | none => cstr "😶"

/-- The labels of the table, in order. -/
def labels : List CStr := emotions.map (fun e => e.text)

/-- The glyphs of the table, in order. -/
def glyphs : List CStr := emotions.map (fun e => e.icon)

/-! ## Observations: kinds of calls, the lock walk -/

/-- A call that takes the port lock. -/
def isLock : Call → Bool
  | .lvgl_port_lock _ => true
  | _ => false

/-- A call that gives the port lock back. -/
def isUnlock : Call → Bool
  | .lvgl_port_unlock => true
  | _ => false

/-- One of the two display-add calls. -/
def isAddDisp : Call → Bool
  | .lvgl_port_add_disp _ => true
  | .lvgl_port_add_disp_rgb _ _ => true
  | _ => false

/-- The call that sets the display offset. -/
def isSetOffset : Call → Bool
  | .lv_display_set_offset _ _ _ => true
  | _ => false

/-- A row write to the panel. -/
def isDraw : Call → Bool
  | .esp_lcd_panel_draw_bitmap _ _ _ _ _ _ => true
  | _ => false

/-- A toolkit call that creates a widget. -/
def createsWidget : Call → Bool
  | .lv_obj_create _ => true
  | .lv_label_create _ => true
  | _ => false

/-- A toolkit call that creates, restyles, retexts or deletes a widget. -/
def mutatesWidget : Call → Bool
  | .lv_obj_create _ => true
  | .lv_label_create _ => true
  | .lv_obj_set_style_text_font _ _ _ => true
  | .lv_obj_set_style_text_color _ _ _ => true
  | .lv_obj_set_style_bg_color _ _ _ => true
  | .lv_obj_set_style_pad_all _ _ _ => true
  | .lv_obj_set_style_border_width _ _ _ => true
  | .lv_obj_set_style_pad_row _ _ _ => true
  | .lv_obj_set_style_pad_column _ _ _ => true
  | .lv_obj_set_style_pad_left _ _ _ => true
  | .lv_obj_set_style_pad_right _ _ _ => true
  | .lv_obj_set_style_radius _ _ _ => true
  | .lv_obj_set_style_text_align _ _ _ => true
  | .lv_obj_set_size _ _ _ => true
  | .lv_obj_set_width _ _ => true
  | .lv_obj_set_flex_flow _ _ => true
  | .lv_obj_set_flex_grow _ _ => true
  | .lv_obj_set_flex_align _ _ _ _ => true
  | .lv_obj_set_scrollbar_mode _ _ => true
  | .lv_label_set_text _ _ => true
  | .lv_label_set_long_mode _ _ => true
  | .lv_obj_add_flag _ _ => true
  | .lv_obj_align _ _ _ _ => true
  | .lv_obj_center _ => true
  | .lv_obj_del _ => true
  | _ => false

/-- Walk a call list with the lock depth at hand: every widget mutation must
find the lock held (depth above zero). -/
def guarded : Nat → List Call → Bool
  | _, [] => true
  | n, .lvgl_port_lock _ :: cs => guarded (n + 1) cs
  | n, .lvgl_port_unlock :: cs => guarded (n - 1) cs
  | n, c :: cs => (!mutatesWidget c || decide (0 < n)) && guarded n cs

/-- The lock is taken once, as the first call, and released once, as the last
call. -/
def lockedOnce (cs : List Call) : Bool :=
  cs.countP isLock == 1 && cs.countP isUnlock == 1 &&
    (cs.head?.map isLock == some true) && (cs.getLast?.map isUnlock == some true)

/-! ## Observations: the parts of a constructor run -/

/-- The world once the constructor has assigned its members and stored the
result of the display-add call. -/
def constructed (x : Extern) (a : Args) (w : World) : World :=
  { w with d := { w.d with panel_io_ := a.panel_io, panel_ := a.panel, fonts_ := a.fonts,
                           width_ := a.width, height_ := a.height,
                           display_ := x.addDispResult } }

/-- The world once the constructor has assigned its members, before any
display is added. -/
def assigned (a : Args) (w : World) : World :=
  { w with d := { w.d with panel_io_ := a.panel_io, panel_ := a.panel, fonts_ := a.fonts,
                           width_ := a.width, height_ := a.height } }

/-- The `lv_display_set_offset` call, made only for a non-zero offset. -/
def offsetCalls (x : Extern) (a : Args) : List Call :=
  if a.offset_x ≠ 0 ∨ a.offset_y ≠ 0 then
    [.lv_display_set_offset x.addDispResult a.offset_x a.offset_y]
  else []

/-- The calls of the SPI constructor up to and including the display-add call. -/
def spiPrefix (x : Extern) (a : Args) (w : World) : List Call :=
  clearRows a.panel a.width a.height (List.replicate a.width.toNat 0) ++
    [.esp_log .info "Turning display on", .esp_lcd_panel_disp_on_off a.panel true,
     .esp_log .info "Initialize LVGL library", .lv_init,
     .esp_log .info "Initialize LVGL port", .lvgl_port_init 1,
     .esp_log .info "Adding LCD screen",
     .lvgl_port_add_disp (spiDisplayCfg (constructed x a w).d a.swap_xy a.mirror_x a.mirror_y)]

/-- The calls of the RGB constructor up to and including the display-add call. -/
def rgbPrefix (x : Extern) (a : Args) (w : World) : List Call :=
  clearRows a.panel a.width a.height (List.replicate a.width.toNat 0) ++
    [.esp_log .info "Initialize LVGL library", .lv_init,
     .esp_log .info "Initialize LVGL port", .lvgl_port_init 1,
     .esp_log .info "Adding LCD screen",
     .lvgl_port_add_disp_rgb
       (rgbDisplayCfg (constructed x a w).d a.swap_xy a.mirror_x a.mirror_y)
       { bb_mode := true, avoid_tearing := true }]

/-! ## Observations: abandoned runs and runs that set the UI up -/

/-- A run abandoned after a failed display-add: the single display-add call is
followed by one error log and nothing else; no offset is set, the lock is never
taken (so `SetupUI` never starts) and no widget is created or touched. -/
def abandoned (cs : List Call) (msg : String) : Prop :=
  (∃ pre add, cs = pre ++ [add, .esp_log .error msg] ∧ isAddDisp add = true ∧
    pre.countP isAddDisp = 0) ∧
  cs.countP isSetOffset = 0 ∧ cs.countP isLock = 0 ∧ cs.countP createsWidget = 0 ∧
  cs.countP mutatesWidget = 0

/-- A run that went on into `SetupUI` exactly once: what comes before the calls
of `SetupUI` holds the single display-add call and neither a lock nor a widget
call, and the whole run takes the lock once (the one guard of `SetupUI`). -/
def setUpOnce (x : Extern) (w₁ : World) (cs : List Call) : Prop :=
  ∃ pre, cs = pre ++ (SetupUI x).calls w₁ ∧ pre.countP isAddDisp = 1 ∧
    pre.countP isLock = 0 ∧ pre.countP mutatesWidget = 0 ∧ cs.countP isLock = 1

/-! ## Observations: pixels -/

/-- The colour a call writes at pixel `(px, py)`, if it writes there:
`esp_lcd_panel_draw_bitmap` fills the rectangle `[x_start, x_end) x [y_start, y_end)`
from its buffer, row by row. -/
def pixelWritten (px py : Int) : Call → Option Nat
  | .esp_lcd_panel_draw_bitmap _ x0 y0 x1 y1 buf =>
    if x0 ≤ px ∧ px < x1 ∧ y0 ≤ py ∧ py < y1 then
      buf[((py - y0) * (x1 - x0) + (px - x0)).toNat]?
    else none
  | _ => none

/-! ## Observations: calls up to the transfer fields -/

/-- Blank the transfer and buffering fields of a configuration:
`double_buffer`, `trans_size`, `color_format` and the `flags` block. -/
def eraseTransfer (cfg : DisplayCfg) : DisplayCfg :=
  { cfg with double_buffer := false, trans_size := 0, color_format := none,
             flags := ⟨0, 0, 0, 0, 0, 0⟩ }

/-- Forget which display-add call is used and the transfer and buffering
fields of its configuration; every other call is kept as it is. -/
def upToTransfer : Call → Call
  | .lvgl_port_add_disp cfg => .lvgl_port_add_disp (eraseTransfer cfg)
  | .lvgl_port_add_disp_rgb cfg _ => .lvgl_port_add_disp (eraseTransfer cfg)
  | c => c

/-- As `upToTransfer`, and forget the text of an error log as well. -/
def upToTransferAndText : Call → Call
  | .esp_log .error _ => .esp_log .error ""
  | c => upToTransfer c

/-! ## Observations: teardown -/

/-- The call a destructor step makes: `c h` when the handle is non-null. -/
def delIf (h : Handle) (c : Handle → Call) : List Call :=
  if h ≠ none then [c h] else []

/-- Handles and parents of the live widgets lie below the next fresh handle, and
so does the screen. -/
def Lvgl.fresh (tk : Lvgl) : Prop :=
  (∀ o ∈ tk.objs, o.handle < tk.next ∧ ∀ p, o.parent = some p → p < tk.next) ∧
  ∀ s, tk.screen = some s → s < tk.next

/-- The twelve widgets `SetupUI` creates, from the fresh handle `n` on, under
the screen `scr`: container, status bar, content area, emotion and chat-message
labels, network, notification, status, mute and battery labels, the low-battery
popup and its label. -/
def setupObjs (n : Nat) (scr : Handle) : List Obj :=
  [⟨n, scr⟩, ⟨n + 1, some n⟩, ⟨n + 2, some n⟩, ⟨n + 3, some (n + 2)⟩, ⟨n + 4, some (n + 2)⟩,
   ⟨n + 5, some (n + 1)⟩, ⟨n + 6, some (n + 1)⟩, ⟨n + 7, some (n + 1)⟩, ⟨n + 8, some (n + 1)⟩,
   ⟨n + 9, some (n + 1)⟩, ⟨n + 10, scr⟩, ⟨n + 11, some (n + 10)⟩]

/-! # Theorems -/

/-! ## SetEmotion: the lookup -/

/-- With a non-null emotion label `SetEmotion` makes exactly four calls. -/
theorem SetEmotion_calls (x : Extern) (emotion : CStr) (w : World)
    (h : w.d.emotion_label_ ≠ none) :
    (SetEmotion x emotion).calls w =
      [.lvgl_port_lock x.guardTimeoutMs,
       .lv_obj_set_style_text_font w.d.emotion_label_ w.d.fonts_.emoji_font 0,
       .lv_label_set_text w.d.emotion_label_ (chosenIcon emotion),
       .lvgl_port_unlock] := by
  unfold chosenIcon
  cases hf : emotions.find? (fun e => decide (e.text = emotion)) <;>
    simp [SetEmotion, DisplayLockGuard, Lock, lvgl_port_lock, Unlock, Op.calls, bind, Op.bind, pure, call, getD, h, hf]

/-- With a null emotion label `SetEmotion` only takes and releases the lock. -/
theorem SetEmotion_calls_null (x : Extern) (emotion : CStr) (w : World)
    (h : w.d.emotion_label_ = none) :
    (SetEmotion x emotion).calls w = [.lvgl_port_lock x.guardTimeoutMs, .lvgl_port_unlock] := by
  simp [SetEmotion, DisplayLockGuard, Lock, lvgl_port_lock, Unlock, Op.calls, bind, Op.bind, pure, call, getD, h]

/-- Every entry of the table is found under its own label. -/
theorem chosenIcon_entry : ∀ e ∈ emotions, chosenIcon e.text = e.icon := by
  decide

/-- A string that is no label of the table gets the fallback glyph. -/
theorem chosenIcon_unknown (s : CStr) (h : s ∉ labels) : chosenIcon s = cstr "😶" := by
  unfold chosenIcon
  have : emotions.find? (fun e => decide (e.text = s)) = none := by
    rw [List.find?_eq_none]
    intro e he hdec
    apply h
    have : e.text = s := by simpa using hdec
    exact this ▸ List.mem_map_of_mem _ he
  rw [this]

/-- What the label shows after `SetEmotion`, for a non-null label. -/
theorem SetEmotion_shown (x : Extern) (emotion : CStr) (w : World)
    (h : w.d.emotion_label_ ≠ none) :
    shownText w.d.emotion_label_ ((SetEmotion x emotion).calls w) = some (chosenIcon emotion) := by
  rw [SetEmotion_calls x emotion w h]
  simp [shownText]

/-- C1: for every entry of the table of `SetEmotion` (there are 21) and every
display state with a non-null emotion label, `SetEmotion` called with the
entry's label makes four calls, the only `lv_label_set_text` among them sets
the emotion label to the entry's glyph, and that glyph is what the label shows
afterwards. -/
theorem C1_SetEmotion_known_label (x : Extern) (w : World) (e : Emotion)
    (he : e ∈ emotions) (hl : w.d.emotion_label_ ≠ none) :
    emotions.length = 21 ∧
    (SetEmotion x e.text).calls w =
      [.lvgl_port_lock x.guardTimeoutMs,
       .lv_obj_set_style_text_font w.d.emotion_label_ w.d.fonts_.emoji_font 0,
       .lv_label_set_text w.d.emotion_label_ e.icon,
       .lvgl_port_unlock] ∧
    shownText w.d.emotion_label_ ((SetEmotion x e.text).calls w) = some e.icon := by
  refine ⟨by decide, ?_, ?_⟩
  · rw [SetEmotion_calls x e.text w hl, chosenIcon_entry e he]
  · rw [SetEmotion_shown x e.text w hl, chosenIcon_entry e he]

/-- C1 at "happy" and at "confused" on the built display: the label shows
"🙂", respectively "🙄". -/
theorem C1_SetEmotion_known_label_witness :
    shownText builtWorld.d.emotion_label_
        ((SetEmotion sampleExtern (cstr "happy")).calls builtWorld) = some (cstr "🙂") ∧
    shownText builtWorld.d.emotion_label_
        ((SetEmotion sampleExtern (cstr "confused")).calls builtWorld) = some (cstr "🙄") :=
  ⟨(C1_SetEmotion_known_label sampleExtern builtWorld ⟨cstr "🙂", cstr "happy"⟩
      (by decide) (by decide)).2.2,
   (C1_SetEmotion_known_label sampleExtern builtWorld ⟨cstr "🙄", cstr "confused"⟩
      (by decide) (by decide)).2.2⟩

/-- C2: for every string that is not one of the labels of the table and every
display state with a non-null emotion label, `SetEmotion` sets the emotion
label to the fallback glyph "😶", which is the glyph of the "neutral" entry. -/
theorem C2_SetEmotion_unknown_label (x : Extern) (w : World) (s : CStr)
    (hs : s ∉ labels) (hl : w.d.emotion_label_ ≠ none) :
    (SetEmotion x s).calls w =
      [.lvgl_port_lock x.guardTimeoutMs,
       .lv_obj_set_style_text_font w.d.emotion_label_ w.d.fonts_.emoji_font 0,
       .lv_label_set_text w.d.emotion_label_ (cstr "😶"),
       .lvgl_port_unlock] ∧
    shownText w.d.emotion_label_ ((SetEmotion x s).calls w) = some (cstr "😶") ∧
    (⟨cstr "😶", cstr "neutral"⟩ : Emotion) ∈ emotions := by
  refine ⟨?_, ?_, by decide⟩
  · rw [SetEmotion_calls x s w hl, chosenIcon_unknown s hs]
  · rw [SetEmotion_shown x s w hl, chosenIcon_unknown s hs]

/-- C2 at the empty string, a label in another letter case, and a label with a
leading or a trailing extra character. -/
theorem C2_SetEmotion_unknown_label_witness :
    shownText builtWorld.d.emotion_label_
        ((SetEmotion sampleExtern (cstr "")).calls builtWorld) = some (cstr "😶") ∧
    shownText builtWorld.d.emotion_label_
        ((SetEmotion sampleExtern (cstr "Happy")).calls builtWorld) = some (cstr "😶") ∧
    shownText builtWorld.d.emotion_label_
        ((SetEmotion sampleExtern (cstr " happy")).calls builtWorld) = some (cstr "😶") ∧
    shownText builtWorld.d.emotion_label_
        ((SetEmotion sampleExtern (cstr "happy ")).calls builtWorld) = some (cstr "😶") :=
  ⟨(C2_SetEmotion_unknown_label sampleExtern builtWorld (cstr "") (by decide) (by decide)).2.1,
   (C2_SetEmotion_unknown_label sampleExtern builtWorld (cstr "Happy") (by decide)
      (by decide)).2.1,
   (C2_SetEmotion_unknown_label sampleExtern builtWorld (cstr " happy") (by decide)
      (by decide)).2.1,
   (C2_SetEmotion_unknown_label sampleExtern builtWorld (cstr "happy ") (by decide)
      (by decide)).2.1⟩

/-- The fallback glyph belongs to "neutral" alone. -/
theorem fallback_only_neutral :
    ∀ e ∈ emotions, e.icon = cstr "😶" → e.text = cstr "neutral" := by
  decide

/-- The fallback glyph is chosen exactly for "neutral" and for unknown strings. -/
theorem chosenIcon_fallback_iff (s : CStr) :
    chosenIcon s = cstr "😶" ↔ (s = cstr "neutral" ∨ s ∉ labels) := by
  constructor
  · intro h
    by_cases hm : s ∈ labels
    · left
      obtain ⟨e, he, rfl⟩ := List.mem_map.mp hm
      rw [chosenIcon_entry e he] at h
      exact fallback_only_neutral e he h
    · exact Or.inr hm
  · rintro (rfl | h)
    · decide
    · exact chosenIcon_unknown s h

/-- Distinct labels of the table have distinct glyphs. -/
theorem icon_injective :
    ∀ e₁ ∈ emotions, ∀ e₂ ∈ emotions, e₁.icon = e₂.icon → e₁.text = e₂.text := by
  decide

/-- C10: the table has 21 entries, its labels are pairwise distinct and so are
its glyphs; on a display with a non-null emotion label two different known
labels never show the same glyph, and the glyph shown for an input is the
fallback "😶" exactly when the input is "neutral" or is no label of the
table. -/
theorem C10_table_injective (x : Extern) (w : World) (hl : w.d.emotion_label_ ≠ none) :
    emotions.length = 21 ∧ labels.Nodup ∧ glyphs.Nodup ∧
    (∀ s₁ ∈ labels, ∀ s₂ ∈ labels, s₁ ≠ s₂ →
      shownText w.d.emotion_label_ ((SetEmotion x s₁).calls w) ≠
        shownText w.d.emotion_label_ ((SetEmotion x s₂).calls w)) ∧
    (∀ s : CStr,
      shownText w.d.emotion_label_ ((SetEmotion x s).calls w) = some (cstr "😶") ↔
        (s = cstr "neutral" ∨ s ∉ labels)) := by
  refine ⟨by decide, by decide, by decide, ?_, ?_⟩
  · intro s₁ h₁ s₂ h₂ hne heq
    rw [SetEmotion_shown x s₁ w hl, SetEmotion_shown x s₂ w hl] at heq
    obtain ⟨e₁, he₁, rfl⟩ := List.mem_map.mp h₁
    obtain ⟨e₂, he₂, rfl⟩ := List.mem_map.mp h₂
    rw [chosenIcon_entry e₁ he₁, chosenIcon_entry e₂ he₂] at heq
    exact hne (icon_injective e₁ he₁ e₂ he₂ (Option.some.inj heq))
  · intro s
    rw [SetEmotion_shown x s w hl]
    constructor
    · intro h
      exact (chosenIcon_fallback_iff s).mp (Option.some.inj h)
    · intro h
      rw [(chosenIcon_fallback_iff s).mpr h]

/-- C10 on the built display: "happy" and "sad" show different glyphs, "neutral"
and the unknown "bored" show the fallback, "happy" does not. -/
theorem C10_table_injective_witness :
    builtWorld.d.emotion_label_ ≠ none ∧
    shownText builtWorld.d.emotion_label_
        ((SetEmotion sampleExtern (cstr "happy")).calls builtWorld) ≠
      shownText builtWorld.d.emotion_label_
        ((SetEmotion sampleExtern (cstr "sad")).calls builtWorld) ∧
    shownText builtWorld.d.emotion_label_
        ((SetEmotion sampleExtern (cstr "bored")).calls builtWorld) = some (cstr "😶") ∧
    shownText builtWorld.d.emotion_label_
        ((SetEmotion sampleExtern (cstr "happy")).calls builtWorld) ≠ some (cstr "😶") :=
  have h := C10_table_injective sampleExtern builtWorld (by decide)
  ⟨by decide,
   h.2.2.2.1 (cstr "happy") (by decide) (cstr "sad") (by decide) (by decide),
   (h.2.2.2.2 (cstr "bored")).mpr (Or.inr (by decide)),
   fun hc => absurd ((h.2.2.2.2 (cstr "happy")).mp hc) (by decide)⟩

/-! ## SetIcon and SetupUI: calls -/

/-- The calls of `SetIcon`, on both paths. -/
theorem SetIcon_calls (x : Extern) (icon : CStr) (w : World) :
    (SetIcon x icon).calls w =
      if w.d.emotion_label_ = none then [.lvgl_port_lock x.guardTimeoutMs, .lvgl_port_unlock]
      else [.lvgl_port_lock x.guardTimeoutMs,
            .lv_obj_set_style_text_font w.d.emotion_label_ x.font_awesome_30_4 0,
            .lv_label_set_text w.d.emotion_label_ icon,
            .lvgl_port_unlock] := by
  by_cases h : w.d.emotion_label_ = none <;>
    simp [SetIcon, DisplayLockGuard, Lock, lvgl_port_lock, Unlock, Op.calls, bind, Op.bind, pure, call, getD, h]

/-- The calls of `SetEmotion`, on both paths. -/
theorem SetEmotion_calls_ite (x : Extern) (emotion : CStr) (w : World) :
    (SetEmotion x emotion).calls w =
      if w.d.emotion_label_ = none then [.lvgl_port_lock x.guardTimeoutMs, .lvgl_port_unlock]
      else [.lvgl_port_lock x.guardTimeoutMs,
            .lv_obj_set_style_text_font w.d.emotion_label_ w.d.fonts_.emoji_font 0,
            .lv_label_set_text w.d.emotion_label_ (chosenIcon emotion),
            .lvgl_port_unlock] := by
  by_cases h : w.d.emotion_label_ = none
  · rw [if_pos h, SetEmotion_calls_null x emotion w h]
  · rw [if_neg h, SetEmotion_calls x emotion w h]

/-- The world `SetEmotion` leaves: the display object is untouched, and the
toolkit has the lock at its former depth. -/
theorem SetEmotion_final (x : Extern) (emotion : CStr) (w : World) :
    ((SetEmotion x emotion).final w).d = w.d ∧
    ((SetEmotion x emotion).final w).tk.lockDepth = w.tk.lockDepth ∧
    ((SetEmotion x emotion).final w).tk.objs = w.tk.objs := by
  by_cases h : w.d.emotion_label_ = none <;>
  cases hf : emotions.find? (fun e => decide (e.text = emotion)) <;>
    simp [SetEmotion, DisplayLockGuard, Lock, lvgl_port_lock, Unlock, Op.final, bind, Op.bind, pure, call, getD,
      h, hf, Lvgl.step]

/-- The world `SetIcon` leaves. -/
theorem SetIcon_final (x : Extern) (icon : CStr) (w : World) :
    ((SetIcon x icon).final w).d = w.d ∧
    ((SetIcon x icon).final w).tk.lockDepth = w.tk.lockDepth ∧
    ((SetIcon x icon).final w).tk.objs = w.tk.objs := by
  by_cases h : w.d.emotion_label_ = none <;>
    simp [SetIcon, DisplayLockGuard, Lock, lvgl_port_lock, Unlock, Op.final, bind, Op.bind, pure, call, getD,
      h, Lvgl.step]

/-- `SetupUI` brackets its 74 toolkit calls between one lock and one unlock. -/
theorem SetupUI_lockedOnce (x : Extern) (w : World) :
    lockedOnce ((SetupUI x).calls w) = true ∧ ((SetupUI x).calls w).length = 76 ∧
    guarded 0 ((SetupUI x).calls w) = true := by
  refine ⟨by rfl, by rfl, by rfl⟩

/-- `SetupUI` leaves the lock at its former depth. -/
theorem SetupUI_lockDepth (x : Extern) (w : World) :
    ((SetupUI x).final w).tk.lockDepth = w.tk.lockDepth := by
  have h : ((SetupUI x).final w).tk.lockDepth = w.tk.lockDepth + 1 - 1 := by rfl
  rw [h, Nat.add_sub_cancel]

/-! ## The constructors: what they run, case by case -/

/-- Row writes leave the toolkit model alone. -/
theorem foldl_step_clearRows (tk : Lvgl) (panel : Handle) (width height : Int)
    (buffer : List Nat) :
    (clearRows panel width height buffer).foldl Lvgl.step tk = tk := by
  unfold clearRows
  generalize List.range height.toNat = ys
  induction ys with
  | nil => rfl
  | cons y ys ih => simpa [Lvgl.step] using ih

/-- Running a list of calls. -/
theorem callAll_run (cs : List Call) (w : World) :
    callAll cs w = ((), { w with tk := cs.foldl Lvgl.step w.tk }, cs) := by
  induction cs generalizing w with
  | nil => rfl
  | cons c cs ih =>
    simp only [callAll, bind, Op.bind, call, ih, List.foldl_cons, List.singleton_append]

/-- SPI constructor, negative width: the vector cannot be built. -/
theorem Spi_run_neg (x : Extern) (a : Args) (w : World) (hw : a.width < 0) :
    SpiLcdDisplay x a w = (.aborted, assigned a w, []) := by
  simp [SpiLcdDisplay, LcdDisplayBase, bind, Op.bind, pure, setD, getD, hw, assigned]

/-- SPI constructor, `esp_lcd_panel_disp_on_off` fails: abort. -/
theorem Spi_run_abort (x : Extern) (a : Args) (w : World) (hw : 0 ≤ a.width)
    (hon : x.dispOnOffOk = false) :
    SpiLcdDisplay x a w = (.aborted, assigned a w,
      clearRows a.panel a.width a.height (List.replicate a.width.toNat 0) ++
      [.esp_log .info "Turning display on", .esp_lcd_panel_disp_on_off a.panel true,
       .abort]) := by
  simp [SpiLcdDisplay, LcdDisplayBase, bind, Op.bind, pure, call, setD, getD, callAll_run,
    foldl_step_clearRows, esp_lcd_panel_disp_on_off, hon, not_lt.mpr hw, Lvgl.step, assigned]

/-- SPI constructor, display-add returns null. -/
theorem Spi_run_null (x : Extern) (a : Args) (w : World) (hw : 0 ≤ a.width)
    (hon : x.dispOnOffOk = true) (hnull : x.addDispResult = none) :
    SpiLcdDisplay x a w = (.returned, constructed x a w,
      spiPrefix x a w ++ [.esp_log .error "Failed to add display"]) := by
  simp [SpiLcdDisplay, LcdDisplayBase, bind, Op.bind, pure, call, setD, getD, callAll_run,
    foldl_step_clearRows, esp_lcd_panel_disp_on_off, lvgl_port_add_disp, hon, hnull,
    not_lt.mpr hw, Lvgl.step, constructed, spiDisplayCfg, spiPrefix]

/-- SPI constructor, display added: offset if any, then `SetupUI`. -/
theorem Spi_run_ok (x : Extern) (a : Args) (w : World) (hw : 0 ≤ a.width)
    (hon : x.dispOnOffOk = true) (hnn : x.addDispResult ≠ none) :
    SpiLcdDisplay x a w = (.returned, (SetupUI x).final (constructed x a w),
      spiPrefix x a w ++ offsetCalls x a ++ (SetupUI x).calls (constructed x a w)) := by
  by_cases ho : a.offset_x ≠ 0 ∨ a.offset_y ≠ 0 <;>
  simp [SpiLcdDisplay, LcdDisplayBase, bind, Op.bind, pure, call, setD, getD, callAll_run,
    foldl_step_clearRows, esp_lcd_panel_disp_on_off, lvgl_port_add_disp, hon, hnn,
    not_lt.mpr hw, Lvgl.step, constructed, spiDisplayCfg, Op.final, Op.calls, ho, spiPrefix,
    offsetCalls]

/-- RGB constructor, negative width: the vector cannot be built. -/
theorem Rgb_run_neg (x : Extern) (a : Args) (w : World) (hw : a.width < 0) :
    RgbLcdDisplay x a w = (.aborted, assigned a w, []) := by
  simp [RgbLcdDisplay, LcdDisplayBase, bind, Op.bind, pure, setD, getD, hw, assigned]

/-- RGB constructor, display-add returns null. -/
theorem Rgb_run_null (x : Extern) (a : Args) (w : World) (hw : 0 ≤ a.width)
    (hnull : x.addDispResult = none) :
    RgbLcdDisplay x a w = (.returned, constructed x a w,
      rgbPrefix x a w ++ [.esp_log .error "Failed to add RGB display"]) := by
  simp [RgbLcdDisplay, LcdDisplayBase, bind, Op.bind, pure, call, setD, getD, callAll_run,
    foldl_step_clearRows, lvgl_port_add_disp_rgb, hnull,
    not_lt.mpr hw, Lvgl.step, constructed, rgbDisplayCfg, rgbPrefix]

/-- RGB constructor, display added: offset if any, then `SetupUI`. -/
theorem Rgb_run_ok (x : Extern) (a : Args) (w : World) (hw : 0 ≤ a.width)
    (hnn : x.addDispResult ≠ none) :
    RgbLcdDisplay x a w = (.returned, (SetupUI x).final (constructed x a w),
      rgbPrefix x a w ++ offsetCalls x a ++ (SetupUI x).calls (constructed x a w)) := by
  by_cases ho : a.offset_x ≠ 0 ∨ a.offset_y ≠ 0 <;>
  simp [RgbLcdDisplay, LcdDisplayBase, bind, Op.bind, pure, call, setD, getD, callAll_run,
    foldl_step_clearRows, lvgl_port_add_disp_rgb, hnn,
    not_lt.mpr hw, Lvgl.step, constructed, rgbDisplayCfg, Op.final, Op.calls, ho, rgbPrefix,
    offsetCalls]

/-- Every call of the clearing loop is a row write. -/
theorem clearRows_isDraw (panel : Handle) (width height : Int) (buffer : List Nat) :
    ∀ c ∈ clearRows panel width height buffer, isDraw c = true := by
  intro c hc
  obtain ⟨y, _, rfl⟩ := List.mem_map.mp hc
  rfl

/-- Counting over a list of row writes, for a property no row write has. -/
theorem countP_of_draws (p : Call → Bool) (hp : ∀ c, isDraw c = true → p c = false)
    (cs : List Call) (hcs : ∀ c ∈ cs, isDraw c = true) : cs.countP p = 0 := by
  rw [List.countP_eq_zero]
  intro c hc
  simp [hp c (hcs c hc)]

/-- The lock walk passes over row writes. -/
theorem guarded_draws (n : Nat) (cs rest : List Call) (hcs : ∀ c ∈ cs, isDraw c = true) :
    guarded n (cs ++ rest) = guarded n rest := by
  induction cs with
  | nil => rfl
  | cons c cs ih =>
    have hc : isDraw c = true := hcs c (List.mem_cons_self _ _)
    have ih := ih (fun c' h' => hcs c' (List.mem_cons_of_mem _ h'))
    cases c <;> simp [isDraw] at hc
    simp [guarded, mutatesWidget, ih]

/-! ## The advisory lock -/

/-- C4: for every input and every display state, each of `SetupUI`,
`SetEmotion` and `SetIcon` takes the lock once, as its first call, and
releases it once, as its last call, and leaves the lock at the depth it found
(free if it was free).  With a null emotion label `SetEmotion` and `SetIcon`
make no call but the lock and the unlock, so no widget is mutated. -/
theorem C4_lock_released_once (x : Extern) (w : World) (s : CStr) :
    (lockedOnce ((SetupUI x).calls w) = true ∧
      ((SetupUI x).final w).tk.lockDepth = w.tk.lockDepth) ∧
    (lockedOnce ((SetEmotion x s).calls w) = true ∧
      ((SetEmotion x s).final w).tk.lockDepth = w.tk.lockDepth) ∧
    (lockedOnce ((SetIcon x s).calls w) = true ∧
      ((SetIcon x s).final w).tk.lockDepth = w.tk.lockDepth) ∧
    (w.d.emotion_label_ = none →
      (SetEmotion x s).calls w = [.lvgl_port_lock x.guardTimeoutMs, .lvgl_port_unlock] ∧
      (SetIcon x s).calls w = [.lvgl_port_lock x.guardTimeoutMs, .lvgl_port_unlock] ∧
      ((SetEmotion x s).calls w).countP mutatesWidget = 0 ∧
      ((SetIcon x s).calls w).countP mutatesWidget = 0) := by
  refine ⟨⟨(SetupUI_lockedOnce x w).1, SetupUI_lockDepth x w⟩,
    ⟨?_, (SetEmotion_final x s w).2.1⟩, ⟨?_, (SetIcon_final x s w).2.1⟩, ?_⟩
  · rw [SetEmotion_calls_ite]
    split <;> rfl
  · rw [SetIcon_calls]
    split <;> rfl
  · intro h
    rw [SetEmotion_calls_ite, SetIcon_calls, if_pos h, if_pos h]
    exact ⟨rfl, rfl, rfl, rfl⟩

/-- C4 on a display whose emotion label is null (nothing set up yet) and whose
lock is free: both setters only lock and unlock, and the lock is free again. -/
theorem C4_lock_released_once_witness :
    freshWorld.d.emotion_label_ = none ∧ freshWorld.tk.lockDepth = 0 ∧
    (SetEmotion sampleExtern (cstr "happy")).calls freshWorld =
      [.lvgl_port_lock 3000, .lvgl_port_unlock] ∧
    (SetIcon sampleExtern (cstr "x")).calls freshWorld =
      [.lvgl_port_lock 3000, .lvgl_port_unlock] ∧
    ((SetEmotion sampleExtern (cstr "happy")).final freshWorld).tk.lockDepth = 0 ∧
    ((SetupUI sampleExtern).final freshWorld).tk.lockDepth = 0 :=
  ⟨rfl, rfl,
   ((C4_lock_released_once sampleExtern freshWorld (cstr "happy")).2.2.2 rfl).1,
   ((C4_lock_released_once sampleExtern freshWorld (cstr "x")).2.2.2 rfl).2.1,
   (C4_lock_released_once sampleExtern freshWorld (cstr "happy")).2.1.2,
   (C4_lock_released_once sampleExtern freshWorld (cstr "happy")).1.2⟩

/-- In `SetupUI`, `SetEmotion`, `SetIcon` and both constructors every widget
mutation finds the lock held. -/
theorem guarded_outside_destructor (x : Extern) (a : Args) (w : World) (s : CStr) :
    guarded 0 ((SetupUI x).calls w) = true ∧
    guarded 0 ((SetEmotion x s).calls w) = true ∧
    guarded 0 ((SetIcon x s).calls w) = true ∧
    guarded 0 ((SpiLcdDisplay x a).calls w) = true ∧
    guarded 0 ((RgbLcdDisplay x a).calls w) = true := by
  refine ⟨(SetupUI_lockedOnce x w).2.2, ?_, ?_, ?_, ?_⟩
  · rw [SetEmotion_calls_ite]
    split <;> rfl
  · rw [SetIcon_calls]
    split <;> rfl
  · rcases lt_or_le a.width 0 with hw | hw
    · simp [Op.calls, Spi_run_neg x a w hw, guarded]
    · cases hon : x.dispOnOffOk
      · simp only [Op.calls, Spi_run_abort x a w hw hon]
        rw [guarded_draws _ _ _ (clearRows_isDraw _ _ _ _)]
        rfl
      · by_cases hn : x.addDispResult = none
        · simp only [Op.calls, Spi_run_null x a w hw hon hn, spiPrefix, List.append_assoc]
          rw [guarded_draws _ _ _ (clearRows_isDraw _ _ _ _)]
          rfl
        · simp only [Op.calls, Spi_run_ok x a w hw hon hn, spiPrefix, List.append_assoc,
            offsetCalls]
          rw [guarded_draws _ _ _ (clearRows_isDraw _ _ _ _)]
          split <;> rfl
  · rcases lt_or_le a.width 0 with hw | hw
    · simp [Op.calls, Rgb_run_neg x a w hw, guarded]
    · by_cases hn : x.addDispResult = none
      · simp only [Op.calls, Rgb_run_null x a w hw hn, rgbPrefix, List.append_assoc]
        rw [guarded_draws _ _ _ (clearRows_isDraw _ _ _ _)]
        rfl
      · simp only [Op.calls, Rgb_run_ok x a w hw hn, rgbPrefix, List.append_assoc,
          offsetCalls]
        rw [guarded_draws _ _ _ (clearRows_isDraw _ _ _ _)]
        split <;> rfl

/-- C3 (the destructor breaks it): on the display the SPI constructor built,
with the lock free, the destructor deletes the content area, the status bar
and the container through `lv_obj_del` without a single lock call, so these
widget deletions happen while the lock is not held. -/
theorem C3_destructor_deletes_unlocked :
    builtWorld.tk.lockDepth = 0 ∧
    destroy.calls builtWorld =
      [.lv_obj_del (some 4), .lv_obj_del (some 3), .lv_obj_del (some 2),
       .lv_display_delete (some 200), .esp_lcd_panel_del (some 101),
       .esp_lcd_panel_io_del (some 100)] ∧
    (destroy.calls builtWorld).countP isLock = 0 ∧
    (destroy.calls builtWorld).countP mutatesWidget = 3 ∧
    guarded 0 (destroy.calls builtWorld) = false := by
  decide

/-! ## A failed display-add -/

/-- No property of the widget/lock kind holds of a row write. -/
theorem countP_clearRows (p : Call → Bool) (hp : ∀ c, isDraw c = true → p c = false)
    (panel : Handle) (width height : Int) (buffer : List Nat) :
    (clearRows panel width height buffer).countP p = 0 :=
  countP_of_draws p hp _ (clearRows_isDraw panel width height buffer)

/-- Row writes are none of the calls counted below. -/
theorem draw_is_plain (c : Call) (h : isDraw c = true) :
    isAddDisp c = false ∧ isSetOffset c = false ∧ isLock c = false ∧
    createsWidget c = false ∧ mutatesWidget c = false ∧ isUnlock c = false := by
  cases c <;> simp [isDraw] at h
  exact ⟨rfl, rfl, rfl, rfl, rfl, rfl⟩

/-- The SPI prefix: one display-add, no lock, no widget call, no offset. -/
theorem spiPrefix_counts (x : Extern) (a : Args) (w : World) :
    (spiPrefix x a w).countP isAddDisp = 1 ∧ (spiPrefix x a w).countP isSetOffset = 0 ∧
    (spiPrefix x a w).countP isLock = 0 ∧ (spiPrefix x a w).countP createsWidget = 0 ∧
    (spiPrefix x a w).countP mutatesWidget = 0 := by
  simp only [spiPrefix, List.countP_append]
  rw [countP_clearRows _ (fun c h => (draw_is_plain c h).1),
    countP_clearRows _ (fun c h => (draw_is_plain c h).2.1),
    countP_clearRows _ (fun c h => (draw_is_plain c h).2.2.1),
    countP_clearRows _ (fun c h => (draw_is_plain c h).2.2.2.1),
    countP_clearRows _ (fun c h => (draw_is_plain c h).2.2.2.2.1)]
  exact ⟨rfl, rfl, rfl, rfl, rfl⟩

/-- The RGB prefix: one display-add, no lock, no widget call, no offset. -/
theorem rgbPrefix_counts (x : Extern) (a : Args) (w : World) :
    (rgbPrefix x a w).countP isAddDisp = 1 ∧ (rgbPrefix x a w).countP isSetOffset = 0 ∧
    (rgbPrefix x a w).countP isLock = 0 ∧ (rgbPrefix x a w).countP createsWidget = 0 ∧
    (rgbPrefix x a w).countP mutatesWidget = 0 := by
  simp only [rgbPrefix, List.countP_append]
  rw [countP_clearRows _ (fun c h => (draw_is_plain c h).1),
    countP_clearRows _ (fun c h => (draw_is_plain c h).2.1),
    countP_clearRows _ (fun c h => (draw_is_plain c h).2.2.1),
    countP_clearRows _ (fun c h => (draw_is_plain c h).2.2.2.1),
    countP_clearRows _ (fun c h => (draw_is_plain c h).2.2.2.2.1)]
  exact ⟨rfl, rfl, rfl, rfl, rfl⟩

/-- The optional offset call is no display-add, lock or widget call. -/
theorem offsetCalls_counts (x : Extern) (a : Args) :
    (offsetCalls x a).countP isAddDisp = 0 ∧ (offsetCalls x a).countP isLock = 0 ∧
    (offsetCalls x a).countP mutatesWidget = 0 ∧ (offsetCalls x a).countP isDraw = 0 := by
  unfold offsetCalls
  split <;> exact ⟨rfl, rfl, rfl, rfl⟩

/-- A prefix ending in the display-add call, split there. -/
theorem spiPrefix_split (x : Extern) (a : Args) (w : World) :
    ∃ pre add, spiPrefix x a w = pre ++ [add] ∧ isAddDisp add = true ∧
      pre.countP isAddDisp = 0 := by
  refine ⟨clearRows a.panel a.width a.height (List.replicate a.width.toNat 0) ++
      [.esp_log .info "Turning display on", .esp_lcd_panel_disp_on_off a.panel true,
       .esp_log .info "Initialize LVGL library", .lv_init,
       .esp_log .info "Initialize LVGL port", .lvgl_port_init 1,
       .esp_log .info "Adding LCD screen"],
      .lvgl_port_add_disp (spiDisplayCfg (constructed x a w).d a.swap_xy a.mirror_x a.mirror_y),
      ?_, rfl, ?_⟩
  · simp [spiPrefix]
  · rw [List.countP_append, countP_clearRows _ (fun c h => (draw_is_plain c h).1)]
    rfl

/-- The same for the RGB prefix. -/
theorem rgbPrefix_split (x : Extern) (a : Args) (w : World) :
    ∃ pre add, rgbPrefix x a w = pre ++ [add] ∧ isAddDisp add = true ∧
      pre.countP isAddDisp = 0 := by
  refine ⟨clearRows a.panel a.width a.height (List.replicate a.width.toNat 0) ++
      [.esp_log .info "Initialize LVGL library", .lv_init,
       .esp_log .info "Initialize LVGL port", .lvgl_port_init 1,
       .esp_log .info "Adding LCD screen"],
      .lvgl_port_add_disp_rgb
        (rgbDisplayCfg (constructed x a w).d a.swap_xy a.mirror_x a.mirror_y)
        { bb_mode := true, avoid_tearing := true },
      ?_, rfl, ?_⟩
  · simp [rgbPrefix]
  · rw [List.countP_append, countP_clearRows _ (fun c h => (draw_is_plain c h).1)]
    rfl

/-- A prefix followed by the error log is an abandoned run. -/
theorem abandoned_of_prefix (pfx : List Call) (msg : String)
    (hsplit : ∃ pre add, pfx = pre ++ [add] ∧ isAddDisp add = true ∧ pre.countP isAddDisp = 0)
    (hcount : pfx.countP isSetOffset = 0 ∧ pfx.countP isLock = 0 ∧
      pfx.countP createsWidget = 0 ∧ pfx.countP mutatesWidget = 0) :
    abandoned (pfx ++ [.esp_log .error msg]) msg := by
  obtain ⟨pre, add, hp, hadd, hpre⟩ := hsplit
  refine ⟨⟨pre, add, by simp [hp], hadd, hpre⟩, ?_, ?_, ?_, ?_⟩ <;>
    simp [List.countP_append, hcount, List.countP_cons, isSetOffset, isLock, createsWidget,
      mutatesWidget]

/-- A prefix, the optional offset call and the calls of `SetupUI` make a run
that set the UI up once. -/
theorem setUpOnce_of_prefix (x : Extern) (a : Args) (w₁ : World) (pfx : List Call)
    (hcount : pfx.countP isAddDisp = 1 ∧ pfx.countP isLock = 0 ∧
      pfx.countP mutatesWidget = 0) :
    setUpOnce x w₁ (pfx ++ offsetCalls x a ++ (SetupUI x).calls w₁) := by
  have ho := offsetCalls_counts x a
  have hs : ((SetupUI x).calls w₁).countP isLock = 1 := by rfl
  refine ⟨pfx ++ offsetCalls x a, rfl, ?_, ?_, ?_, ?_⟩ <;>
    simp [List.countP_append, hcount, ho, hs]

/-- C5: in both constructors (for a non-negative width, and for the SPI one
once the panel has been switched on), when the display-add call returns null
the run ends with that call followed by the error log: no offset is set, the
lock is never taken, no widget is created or touched, display-add is called
once, the constructor returns and the toolkit is as it was; when the call
returns a display, the run continues into `SetupUI` exactly once. -/
theorem C5_failed_add_is_abandoned (x : Extern) (a : Args) (w : World)
    (hw : 0 ≤ a.width) (hon : x.dispOnOffOk = true) :
    (x.addDispResult = none →
      abandoned ((SpiLcdDisplay x a).calls w) "Failed to add display" ∧
      abandoned ((RgbLcdDisplay x a).calls w) "Failed to add RGB display" ∧
      (SpiLcdDisplay x a).value w = .returned ∧ (RgbLcdDisplay x a).value w = .returned ∧
      (SpiLcdDisplay x a).final w = constructed x a w ∧
      (RgbLcdDisplay x a).final w = constructed x a w ∧
      (constructed x a w).tk = w.tk) ∧
    (x.addDispResult ≠ none →
      setUpOnce x (constructed x a w) ((SpiLcdDisplay x a).calls w) ∧
      setUpOnce x (constructed x a w) ((RgbLcdDisplay x a).calls w) ∧
      (SpiLcdDisplay x a).final w = (SetupUI x).final (constructed x a w) ∧
      (RgbLcdDisplay x a).final w = (SetupUI x).final (constructed x a w)) := by
  constructor
  · intro hn
    have hs := spiPrefix_counts x a w
    have hr := rgbPrefix_counts x a w
    have e₁ := Spi_run_null x a w hw hon hn
    have e₂ := Rgb_run_null x a w hw hn
    refine ⟨?_, ?_, ?_, ?_, ?_, ?_, rfl⟩
    · show abandoned (SpiLcdDisplay x a w).2.2 _
      rw [e₁]
      exact abandoned_of_prefix _ _ (spiPrefix_split x a w) hs.2
    · show abandoned (RgbLcdDisplay x a w).2.2 _
      rw [e₂]
      exact abandoned_of_prefix _ _ (rgbPrefix_split x a w) hr.2
    · show (SpiLcdDisplay x a w).1 = _
      rw [e₁]
    · show (RgbLcdDisplay x a w).1 = _
      rw [e₂]
    · show (SpiLcdDisplay x a w).2.1 = _
      rw [e₁]
    · show (RgbLcdDisplay x a w).2.1 = _
      rw [e₂]
  · intro hnn
    have hs := spiPrefix_counts x a w
    have hr := rgbPrefix_counts x a w
    have e₁ := Spi_run_ok x a w hw hon hnn
    have e₂ := Rgb_run_ok x a w hw hnn
    refine ⟨?_, ?_, ?_, ?_⟩
    · have := setUpOnce_of_prefix x a (constructed x a w) (spiPrefix x a w)
        ⟨hs.1, hs.2.2.1, hs.2.2.2.2⟩
      simpa [Op.calls, e₁] using this
    · have := setUpOnce_of_prefix x a (constructed x a w) (rgbPrefix x a w)
        ⟨hr.1, hr.2.2.1, hr.2.2.2.2⟩
      simpa [Op.calls, e₂] using this
    · simp [Op.final, e₁]
    · simp [Op.final, e₂]

/-- C5 on the sample arguments: with a null display both runs are abandoned and
the SPI run is the two row writes, eight calls up to the display-add and the
error log; with a display both runs set the UI up once. -/
theorem C5_failed_add_is_abandoned_witness :
    (abandoned ((SpiLcdDisplay failingExtern sampleArgs).calls freshWorld)
        "Failed to add display" ∧
      abandoned ((RgbLcdDisplay failingExtern sampleArgs).calls freshWorld)
        "Failed to add RGB display" ∧
      ((SpiLcdDisplay failingExtern sampleArgs).calls freshWorld).length = 11 ∧
      ((SpiLcdDisplay failingExtern sampleArgs).final freshWorld).tk = freshWorld.tk) ∧
    (setUpOnce sampleExtern (constructed sampleExtern sampleArgs freshWorld)
        ((SpiLcdDisplay sampleExtern sampleArgs).calls freshWorld) ∧
      setUpOnce sampleExtern (constructed sampleExtern sampleArgs freshWorld)
        ((RgbLcdDisplay sampleExtern sampleArgs).calls freshWorld)) :=
  have hf := (C5_failed_add_is_abandoned failingExtern sampleArgs freshWorld
    (by decide) (by decide)).1 (by decide)
  have hs := (C5_failed_add_is_abandoned sampleExtern sampleArgs freshWorld
    (by decide) (by decide)).2 (by decide)
  ⟨⟨hf.1, hf.2.1, by decide, by decide⟩, ⟨hs.1, hs.2.1⟩⟩

/-! ## The clearing loop -/

/-- Calls that are no row writes write no pixel. -/
theorem filterMap_pixelWritten_nil (px py : Int) (cs : List Call)
    (h : cs.countP isDraw = 0) : cs.filterMap (pixelWritten px py) = [] := by
  rw [List.filterMap_eq_nil_iff]
  intro c hc
  have hd : ¬ (isDraw c = true) := (List.countP_eq_zero.mp h) c hc
  cases c <;> simp [isDraw] at hd <;> rfl

/-- A function on `0 .. h-1` that answers at one place only. -/
theorem filterMap_range_unique {β : Type} (g : Nat → Option β) (v : β) (y₀ h : Nat)
    (hy : y₀ < h) (h₁ : g y₀ = some v) (h₂ : ∀ y, y ≠ y₀ → g y = none) :
    (List.range h).filterMap g = [v] := by
  induction h with
  | zero => omega
  | succ n ih =>
    rw [List.range_succ, List.filterMap_append]
    by_cases hn : y₀ = n
    · have hnil : (List.range n).filterMap g = [] := by
        rw [List.filterMap_eq_nil_iff]
        intro y hyn
        exact h₂ y (by have := List.mem_range.mp hyn; omega)
      subst hn
      simp [hnil, h₁]
    · have hlt : y₀ < n := by omega
      simp [ih hlt, h₂ n (fun h => hn h.symm)]

/-- The clearing loop writes every pixel of the panel once, with the fill of
the buffer. -/
theorem clearRows_pixel (panel : Handle) (width height : Int) (fill : Nat) (px py : Int)
    (hx₀ : 0 ≤ px) (hx₁ : px < width) (hy₀ : 0 ≤ py) (hy₁ : py < height) :
    (clearRows panel width height (List.replicate width.toNat fill)).filterMap
      (pixelWritten px py) = [fill] := by
  unfold clearRows
  rw [List.filterMap_map]
  apply filterMap_range_unique _ fill py.toNat height.toNat (by omega)
  · have e : ((py.toNat : Nat) : Int) = py := Int.toNat_of_nonneg hy₀
    simp only [Function.comp, pixelWritten, e]
    rw [if_pos ⟨hx₀, hx₁, le_refl _, by omega⟩]
    have : ((py - py) * (width - 0) + (px - 0)).toNat = px.toNat := by simp
    rw [this, List.getElem?_eq_getElem (by simp; omega)]
    simp
  · intro y hne
    simp only [Function.comp, pixelWritten]
    rw [if_neg]
    rintro ⟨-, -, h₁, h₂⟩
    apply hne
    omega

/-- The `y`-th call of the clearing loop. -/
theorem clearRows_get (panel : Handle) (width height : Int) (buffer : List Nat) (y : Nat)
    (hy : y < height.toNat) :
    (clearRows panel width height buffer)[y]? =
      some (.esp_lcd_panel_draw_bitmap panel 0 (y : Int) width ((y : Int) + 1) buffer) := by
  simp [clearRows, List.getElem?_map, List.getElem?_range hy]

/-- The clearing loop makes `height` calls (none for `height ≤ 0`). -/
theorem clearRows_length (panel : Handle) (width height : Int) (buffer : List Nat) :
    (clearRows panel width height buffer).length = height.toNat := by
  simp [clearRows]

/-- The SPI constructor starts with the clearing loop; what follows begins with
the "Turning display on" log and holds no row write. -/
theorem Spi_calls_split (x : Extern) (a : Args) (w : World) (hw : 0 ≤ a.width) :
    ∃ rest, (SpiLcdDisplay x a).calls w =
      clearRows a.panel a.width a.height (List.replicate a.width.toNat 0) ++ rest ∧
      rest.head? = some (.esp_log .info "Turning display on") ∧ rest.countP isDraw = 0 := by
  cases hon : x.dispOnOffOk
  · simp only [Op.calls, Spi_run_abort x a w hw hon]
    exact ⟨_, rfl, rfl, rfl⟩
  · by_cases hn : x.addDispResult = none
    · simp only [Op.calls, Spi_run_null x a w hw hon hn, spiPrefix, List.append_assoc]
      exact ⟨_, rfl, rfl, rfl⟩
    · simp only [Op.calls, Spi_run_ok x a w hw hon hn, spiPrefix, List.append_assoc]
      refine ⟨_, rfl, rfl, ?_⟩
      have hs : ((SetupUI x (constructed x a w)).2.2).countP isDraw = 0 := by rfl
      rw [List.countP_append, List.countP_append, (offsetCalls_counts x a).2.2.2, hs]
      rfl

/-- C8: for a non-negative width the SPI constructor begins with `height` row
writes (none for `height ≤ 0`), the `y`-th covering `x` in `[0, width)` and the
row `[y, y+1)` from a buffer of `width` zeros; the call that follows them is the
"Turning display on" log and no row write comes later, so every pixel of the
`width x height` panel is written exactly once, with 0x0000. -/
theorem C8_spi_clears_to_black (x : Extern) (a : Args) (w : World) (hw : 0 ≤ a.width) :
    (∀ y : Nat, y < a.height.toNat →
      ((SpiLcdDisplay x a).calls w)[y]? =
        some (.esp_lcd_panel_draw_bitmap a.panel 0 (y : Int) a.width ((y : Int) + 1)
          (List.replicate a.width.toNat 0x0000))) ∧
    (((SpiLcdDisplay x a).calls w).drop a.height.toNat).head? =
      some (.esp_log .info "Turning display on") ∧
    (((SpiLcdDisplay x a).calls w).drop a.height.toNat).countP isDraw = 0 ∧
    ((SpiLcdDisplay x a).calls w).countP isDraw = a.height.toNat ∧
    (∀ px py : Int, 0 ≤ px → px < a.width → 0 ≤ py → py < a.height →
      ((SpiLcdDisplay x a).calls w).filterMap (pixelWritten px py) = [0x0000]) ∧
    (a.height ≤ 0 → ((SpiLcdDisplay x a).calls w).countP isDraw = 0) := by
  obtain ⟨rest, hcs, hhead, hnd⟩ := Spi_calls_split x a w hw
  have hl := clearRows_length a.panel a.width a.height (List.replicate a.width.toNat 0)
  have hdrop : ((SpiLcdDisplay x a).calls w).drop a.height.toNat = rest := by
    rw [hcs, ← hl, List.drop_left]
  have hcount : ((SpiLcdDisplay x a).calls w).countP isDraw = a.height.toNat := by
    rw [hcs, List.countP_append, hnd, Nat.add_zero, ← hl, List.countP_eq_length]
    exact clearRows_isDraw _ _ _ _
  refine ⟨?_, ?_, ?_, hcount, ?_, ?_⟩
  · intro y hy
    rw [hcs, List.getElem?_append_left (by rw [hl]; exact hy)]
    exact clearRows_get _ _ _ _ y hy
  · rw [hdrop, hhead]
  · rw [hdrop, hnd]
  · intro px py hx₀ hx₁ hy₀ hy₁
    rw [hcs, List.filterMap_append, filterMap_pixelWritten_nil px py rest hnd,
      clearRows_pixel a.panel a.width a.height 0 px py hx₀ hx₁ hy₀ hy₁]
    rfl
  · intro hh
    rw [hcount]
    omega

/-- C8 on a 2 x 2 panel: two row writes of two black pixels each come first,
and the pixel (1, 1) is written once, with 0x0000. -/
theorem C8_spi_clears_to_black_witness :
    ((SpiLcdDisplay sampleExtern sampleArgs).calls freshWorld).take 3 =
      [.esp_lcd_panel_draw_bitmap (some 101) 0 0 2 1 [0, 0],
       .esp_lcd_panel_draw_bitmap (some 101) 0 1 2 2 [0, 0],
       .esp_log .info "Turning display on"] ∧
    ((SpiLcdDisplay sampleExtern sampleArgs).calls freshWorld).filterMap (pixelWritten 1 1) =
      [0x0000] :=
  ⟨by decide,
   (C8_spi_clears_to_black sampleExtern sampleArgs freshWorld (by decide)).2.2.2.2.1 1 1
     (by decide) (by decide) (by decide) (by decide)⟩

/-- The RGB constructor starts with the same clearing loop, over a buffer of
zeros; no row write comes later. -/
theorem Rgb_calls_split (x : Extern) (a : Args) (w : World) (hw : 0 ≤ a.width) :
    ∃ rest, (RgbLcdDisplay x a).calls w =
      clearRows a.panel a.width a.height (List.replicate a.width.toNat 0) ++ rest ∧
      rest.head? = some (.esp_log .info "Initialize LVGL library") ∧
      rest.countP isDraw = 0 := by
  by_cases hn : x.addDispResult = none
  · simp only [Op.calls, Rgb_run_null x a w hw hn, rgbPrefix, List.append_assoc]
    exact ⟨_, rfl, rfl, rfl⟩
  · simp only [Op.calls, Rgb_run_ok x a w hw hn, rgbPrefix, List.append_assoc]
    refine ⟨_, rfl, rfl, ?_⟩
    have hs : ((SetupUI x (constructed x a w)).2.2).countP isDraw = 0 := by rfl
    rw [List.countP_append, List.countP_append, (offsetCalls_counts x a).2.2.2, hs]
    rfl

/-- Whatever the arguments, every pixel the RGB constructor writes is written
once, with 0x0000. -/
theorem Rgb_pixels_black (x : Extern) (a : Args) (w : World) (hw : 0 ≤ a.width)
    (px py : Int) (hx₀ : 0 ≤ px) (hx₁ : px < a.width) (hy₀ : 0 ≤ py) (hy₁ : py < a.height) :
    ((RgbLcdDisplay x a).calls w).filterMap (pixelWritten px py) = [0x0000] := by
  obtain ⟨rest, hcs, -, hnd⟩ := Rgb_calls_split x a w hw
  rw [hcs, List.filterMap_append, filterMap_pixelWritten_nil px py rest hnd,
    clearRows_pixel a.panel a.width a.height 0 px py hx₀ hx₁ hy₀ hy₁]
  rfl

/-- C9 (the code writes black): on a 2 x 2 panel the RGB constructor draws both
rows from a buffer of two 0x0000 pixels, not 0xFFFF, and the pixel (0, 0) ends
up written once with 0x0000. -/
theorem C9_rgb_clears_to_black_not_white :
    ((RgbLcdDisplay sampleExtern sampleArgs).calls freshWorld).take 3 =
      [.esp_lcd_panel_draw_bitmap (some 101) 0 0 2 1 [0x0000, 0x0000],
       .esp_lcd_panel_draw_bitmap (some 101) 0 1 2 2 [0x0000, 0x0000],
       .esp_log .info "Initialize LVGL library"] ∧
    ((RgbLcdDisplay sampleExtern sampleArgs).calls freshWorld).filterMap (pixelWritten 0 0) =
      [0x0000] ∧
    ((RgbLcdDisplay sampleExtern sampleArgs).calls freshWorld).filterMap (pixelWritten 0 0) ≠
      [0xFFFF] := by
  decide

/-! ## The two constructors side by side -/

/-- C6 fails as stated: on the sample arguments the two call sequences differ
beyond the display-add call and its transfer fields.  The SPI constructor makes
86 calls, the RGB constructor 84; the third SPI call is the log "Turning
display on" and the fourth is `esp_lcd_panel_disp_on_off`, which the RGB
constructor never calls. -/
theorem C6_counterexample :
    ((SpiLcdDisplay sampleExtern sampleArgs).calls freshWorld).map upToTransfer ≠
      ((RgbLcdDisplay sampleExtern sampleArgs).calls freshWorld).map upToTransfer ∧
    ((SpiLcdDisplay sampleExtern sampleArgs).calls freshWorld).length = 86 ∧
    ((RgbLcdDisplay sampleExtern sampleArgs).calls freshWorld).length = 84 ∧
    ((SpiLcdDisplay sampleExtern sampleArgs).calls freshWorld)[3]? =
      some (.esp_lcd_panel_disp_on_off (some 101) true) ∧
    ((RgbLcdDisplay sampleExtern sampleArgs).calls freshWorld).countP
      (fun c => c == .esp_lcd_panel_disp_on_off (some 101) true) = 0 := by
  decide

/-- C6, amended: for a non-negative width and a panel that switches on, both
constructors begin with the same clearing loop; the SPI constructor then makes
two calls of its own, the log "Turning display on" and
`esp_lcd_panel_disp_on_off(panel, true)`; after that the two sequences agree
call by call except for the display-add call used, the transfer and buffering
fields of its configuration and the text of the error logged when no display
is added (when a display is added, no text differs).  Both leave the same
world. -/
theorem C6_constructors_agree_after_power_on (x : Extern) (a : Args) (w : World)
    (hw : 0 ≤ a.width) (hon : x.dispOnOffOk = true) :
    ∃ tailSpi tailRgb,
      (SpiLcdDisplay x a).calls w =
        clearRows a.panel a.width a.height (List.replicate a.width.toNat 0) ++
          (.esp_log .info "Turning display on" ::
            .esp_lcd_panel_disp_on_off a.panel true :: tailSpi) ∧
      (RgbLcdDisplay x a).calls w =
        clearRows a.panel a.width a.height (List.replicate a.width.toNat 0) ++ tailRgb ∧
      tailSpi.map upToTransferAndText = tailRgb.map upToTransferAndText ∧
      (x.addDispResult ≠ none → tailSpi.map upToTransfer = tailRgb.map upToTransfer) ∧
      (SpiLcdDisplay x a).final w = (RgbLcdDisplay x a).final w ∧
      (SpiLcdDisplay x a).value w = (RgbLcdDisplay x a).value w := by
  by_cases hn : x.addDispResult = none
  · simp only [Op.calls, Op.final, Op.value, Spi_run_null x a w hw hon hn,
      Rgb_run_null x a w hw hn, spiPrefix, rgbPrefix, List.append_assoc]
    exact ⟨_, _, rfl, rfl, rfl, fun h => absurd hn h, trivial, trivial⟩
  · simp only [Op.calls, Op.final, Op.value, Spi_run_ok x a w hw hon hn,
      Rgb_run_ok x a w hw hn, spiPrefix, rgbPrefix, List.append_assoc]
    exact ⟨_, _, rfl, rfl, rfl, fun _ => rfl, trivial, trivial⟩

/-- C6, amended, on the sample arguments: once the clearing loop and the two
power-on calls of the SPI constructor are set aside, 82 calls are left on
either side and they agree up to the display-add call and its transfer fields. -/
theorem C6_constructors_agree_after_power_on_witness :
    (((SpiLcdDisplay sampleExtern sampleArgs).calls freshWorld).drop 4).map upToTransfer =
      (((RgbLcdDisplay sampleExtern sampleArgs).calls freshWorld).drop 2).map upToTransfer ∧
    (((RgbLcdDisplay sampleExtern sampleArgs).calls freshWorld).drop 2).length = 82 ∧
    (∃ tailSpi tailRgb,
      (SpiLcdDisplay sampleExtern sampleArgs).calls freshWorld =
        clearRows (some 101) 2 2 [0, 0] ++
          (.esp_log .info "Turning display on" ::
            .esp_lcd_panel_disp_on_off (some 101) true :: tailSpi) ∧
      (RgbLcdDisplay sampleExtern sampleArgs).calls freshWorld =
        clearRows (some 101) 2 2 [0, 0] ++ tailRgb ∧
      tailSpi.map upToTransfer = tailRgb.map upToTransfer) :=
  ⟨by rfl, by decide,
   (C6_constructors_agree_after_power_on sampleExtern sampleArgs freshWorld
      (by decide) (by decide)).elim
     (fun tailSpi h => h.elim (fun tailRgb h' =>
        ⟨tailSpi, tailRgb, h'.1, h'.2.1, h'.2.2.2.1 (by decide)⟩))⟩

/-! ## Teardown -/

/-- What the `lv_obj_del` calls of the destructor reach, on the display the SPI
constructor built: `SetupUI` created the widgets 2 .. 13 under the screen 1.
The destructor calls `lv_obj_del` on the content area, the status bar and the
container only; these calls destroy the container and the nine widgets below
it.  The low-battery popup (12), a child of the screen, and its label (13) are
reached by none of them, and no `lv_obj_del` call names the popup. -/
theorem destroy_built_objs :
    builtWorld.tk.objs.map (fun o => o.handle) = [1, 2, 3, 4, 5, 6, 7, 8, 9, 10, 11, 12, 13] ∧
    builtWorld.d.container_ = some 2 ∧ builtWorld.d.low_battery_popup_ = some 12 ∧
    (destroy.final builtWorld).tk.objs = [⟨1, none⟩, ⟨12, some 1⟩, ⟨13, some 12⟩] ∧
    (destroy.final builtWorld).tk.alive builtWorld.d.low_battery_popup_ = true ∧
    (destroy.final builtWorld).tk.alive (some 13) = true ∧
    (destroy.final builtWorld).tk.alive builtWorld.d.container_ = false ∧
    (destroy.final builtWorld).tk.alive builtWorld.d.status_bar_ = false ∧
    (destroy.final builtWorld).tk.alive builtWorld.d.content_ = false ∧
    (destroy.final builtWorld).tk.alive builtWorld.d.emotion_label_ = false ∧
    (destroy.final builtWorld).tk.alive builtWorld.d.battery_label_ = false ∧
    (destroy.calls builtWorld).countP
      (fun c => c == .lv_obj_del builtWorld.d.low_battery_popup_) = 0 := by
  decide

/-! ## Teardown, for every display -/

/-- One `if (h != nullptr) { c(h); }` step of the destructor. -/
theorem whenNonNull_run (h : Handle) (c : Handle → Call) (w : World) :
    whenNonNull h c w = ((), { w with tk := (delIf h c).foldl Lvgl.step w.tk }, delIf h c) := by
  by_cases hh : h = none <;> simp [whenNonNull, delIf, hh, call, pure]

/-- What the destructor runs. -/
theorem destroy_run (w : World) :
    destroy w = ((), { w with tk :=
        ((delIf w.d.content_ .lv_obj_del ++ delIf w.d.status_bar_ .lv_obj_del ++
          delIf w.d.side_bar_ .lv_obj_del ++ delIf w.d.container_ .lv_obj_del ++
          delIf w.d.display_ .lv_display_delete ++ delIf w.d.panel_ .esp_lcd_panel_del ++
          delIf w.d.panel_io_ .esp_lcd_panel_io_del).foldl Lvgl.step w.tk) },
      delIf w.d.content_ .lv_obj_del ++ delIf w.d.status_bar_ .lv_obj_del ++
        delIf w.d.side_bar_ .lv_obj_del ++ delIf w.d.container_ .lv_obj_del ++
        delIf w.d.display_ .lv_display_delete ++ delIf w.d.panel_ .esp_lcd_panel_del ++
        delIf w.d.panel_io_ .esp_lcd_panel_io_del) := by
  simp only [destroy, bind, Op.bind, getD, whenNonNull_run, List.foldl_append, List.append_assoc,
    List.nil_append]

/-- A deletion step acts on the live widgets as `delTree`. -/
theorem foldl_step_del (h : Handle) (tk : Lvgl) :
    ((delIf h .lv_obj_del).foldl Lvgl.step tk) = { tk with objs := delTree h tk.objs } := by
  cases h <;> simp [delIf, Lvgl.step, delTree]

/-- The last three steps of the destructor leave the widgets alone. -/
theorem foldl_step_other (h : Handle) (tk : Lvgl) :
    ((delIf h .lv_display_delete).foldl Lvgl.step tk) = tk ∧
    ((delIf h .esp_lcd_panel_del).foldl Lvgl.step tk) = tk ∧
    ((delIf h .esp_lcd_panel_io_del).foldl Lvgl.step tk) = tk := by
  cases h <;> simp [delIf, Lvgl.step]

/-- The widgets alive after the destructor. -/
theorem destroy_objs (w : World) :
    (destroy.final w).tk.objs =
      delTree w.d.container_ (delTree w.d.side_bar_ (delTree w.d.status_bar_
        (delTree w.d.content_ w.tk.objs))) := by
  simp only [Op.final, destroy_run, List.foldl_append, foldl_step_del, foldl_step_other]

/-- Scanning two lists in a row is scanning the first, then the second. -/
theorem doomed_append (root : Nat) (os₁ os₂ : List Obj) (acc : List Nat) :
    doomed root (os₁ ++ os₂) acc = doomed root os₂ (doomed root os₁ acc) := by
  induction os₁ generalizing acc with
  | nil => rfl
  | cons o os ih =>
    simp only [List.cons_append, doomed]
    split <;> exact ih _

/-- Widgets older than the root, with older parents, are never swept up. -/
theorem doomed_old (n root : Nat) (os : List Obj) (acc : List Nat)
    (hos : ∀ o ∈ os, o.handle < n ∧ ∀ p, o.parent = some p → p < n)
    (hroot : n ≤ root) (hacc : ∀ r ∈ acc, n ≤ r) : doomed root os acc = acc := by
  induction os with
  | nil => rfl
  | cons o os ih =>
    have ho := hos o (List.mem_cons_self _ _)
    have hno : ¬ (o.handle = root ∨ ∃ p ∈ acc, o.parent = some p) := by
      rintro (h | ⟨p, hp, hpar⟩)
      · omega
      · have := ho.2 p hpar
        have := hacc p hp
        omega
    simp only [doomed, if_neg hno]
    exact ih (fun o' h' => hos o' (List.mem_cons_of_mem _ h'))

/-- What is swept up was in the accumulator or is the handle of a scanned widget. -/
theorem doomed_mem (root : Nat) (os : List Obj) (acc : List Nat) :
    ∀ r ∈ doomed root os acc, r ∈ acc ∨ ∃ o ∈ os, o.handle = r := by
  induction os generalizing acc with
  | nil => intro r hr; exact Or.inl hr
  | cons o os ih =>
    intro r hr
    simp only [doomed] at hr
    split at hr
    · rcases ih _ r hr with h | ⟨o', ho', rfl⟩
      · rcases List.mem_append.mp h with h | h
        · exact Or.inl h
        · simp at h
          exact Or.inr ⟨o, List.mem_cons_self _ _, h.symm⟩
      · exact Or.inr ⟨o', List.mem_cons_of_mem _ ho', rfl⟩
    · rcases ih _ r hr with h | ⟨o', ho', rfl⟩
      · exact Or.inl h
      · exact Or.inr ⟨o', List.mem_cons_of_mem _ ho', rfl⟩

/-- Deleting a fresh root passes over the older widgets. -/
theorem delTree_fresh (n root : Nat) (old new : List Obj)
    (hold : ∀ o ∈ old, o.handle < n ∧ ∀ p, o.parent = some p → p < n)
    (hnew : ∀ o ∈ new, n ≤ o.handle) (hroot : n ≤ root) :
    delTree (some root) (old ++ new) = old ++ delTree (some root) new := by
  have hD : doomed root (old ++ new) [root] = doomed root new [root] := by
    rw [doomed_append, doomed_old n root old [root] hold hroot (by simpa using hroot)]
  simp only [delTree, hD, List.filter_append]
  congr 1
  rw [List.filter_eq_self]
  intro o ho
  simp only [decide_eq_true_eq]
  intro hmem
  rcases doomed_mem root new [root] _ hmem with h | ⟨o', ho', he⟩
  · simp at h
    have := (hold o ho).1
    omega
  · have := (hold o ho).1
    have := hnew o' ho'
    omega

/-- Appending one by one is appending the list. -/
theorem foldl_snoc {α : Type} (init l : List α) :
    l.foldl (fun acc o => acc ++ [o]) init = init ++ l := by
  induction l generalizing init with
  | nil => simp
  | cons a l ih => simp [ih]

/-- The widgets alive after `SetupUI`, and the handles it stores. -/
theorem SetupUI_objs (x : Extern) (w : World) :
    ((SetupUI x).final w).tk.objs = w.tk.objs ++ setupObjs w.tk.next w.tk.screen ∧
    ((SetupUI x).final w).d.container_ = some w.tk.next ∧
    ((SetupUI x).final w).d.status_bar_ = some (w.tk.next + 1) ∧
    ((SetupUI x).final w).d.content_ = some (w.tk.next + 2) ∧
    ((SetupUI x).final w).d.low_battery_popup_ = some (w.tk.next + 10) ∧
    ((SetupUI x).final w).d.side_bar_ = w.d.side_bar_ := by
  refine ⟨?_, rfl, rfl, rfl, rfl, rfl⟩
  have h : ((SetupUI x).final w).tk.objs =
      (setupObjs w.tk.next w.tk.screen).foldl (fun acc o => acc ++ [o]) w.tk.objs := rfl
  rw [h, foldl_snoc]

/-- Deleting the content area takes the two labels below it along. -/
theorem delTree_content (n : Nat) (scr : Handle) (hs : ∀ s, scr = some s → s < n) :
    delTree (some (n + 2)) (setupObjs n scr) =
      [⟨n, scr⟩, ⟨n + 1, some n⟩, ⟨n + 5, some (n + 1)⟩, ⟨n + 6, some (n + 1)⟩,
       ⟨n + 7, some (n + 1)⟩, ⟨n + 8, some (n + 1)⟩, ⟨n + 9, some (n + 1)⟩,
       ⟨n + 10, scr⟩, ⟨n + 11, some (n + 10)⟩] := by
  cases scr with
  | none => simp [setupObjs, delTree, doomed, List.filter]
  | some s =>
    have := hs s rfl
    obtain ⟨m, rfl⟩ : ∃ m, n = s + 1 + m := ⟨n - s - 1, by omega⟩
    simp_arith [setupObjs, delTree, doomed, List.filter]

/-- Deleting the status bar takes the five labels below it along. -/
theorem delTree_status_bar (n : Nat) (scr : Handle) (hs : ∀ s, scr = some s → s < n) :
    delTree (some (n + 1))
      [⟨n, scr⟩, ⟨n + 1, some n⟩, ⟨n + 5, some (n + 1)⟩, ⟨n + 6, some (n + 1)⟩,
       ⟨n + 7, some (n + 1)⟩, ⟨n + 8, some (n + 1)⟩, ⟨n + 9, some (n + 1)⟩,
       ⟨n + 10, scr⟩, ⟨n + 11, some (n + 10)⟩] =
      [⟨n, scr⟩, ⟨n + 10, scr⟩, ⟨n + 11, some (n + 10)⟩] := by
  cases scr with
  | none => simp [delTree, doomed, List.filter]
  | some s =>
    have := hs s rfl
    obtain ⟨m, rfl⟩ : ∃ m, n = s + 1 + m := ⟨n - s - 1, by omega⟩
    simp_arith [delTree, doomed, List.filter]

/-- Deleting the container leaves the popup and its label. -/
theorem delTree_container (n : Nat) (scr : Handle) (hs : ∀ s, scr = some s → s < n) :
    delTree (some n) [⟨n, scr⟩, ⟨n + 10, scr⟩, ⟨n + 11, some (n + 10)⟩] =
      [⟨n + 10, scr⟩, ⟨n + 11, some (n + 10)⟩] := by
  cases scr with
  | none => simp [delTree, doomed, List.filter]
  | some s =>
    have := hs s rfl
    obtain ⟨m, rfl⟩ : ∃ m, n = s + 1 + m := ⟨n - s - 1, by omega⟩
    simp_arith [delTree, doomed, List.filter]

/-- Deleting through a null handle deletes nothing. -/
theorem delTree_none (objs : List Obj) : delTree none objs = objs := rfl

/-- For every display set up on a toolkit whose handles are fresh (and with no
side bar, which this file never creates): the `lv_obj_del` calls of the
destructor leave the widgets that were there before `SetupUI` untouched,
destroy the container and everything below it, and reach neither the
low-battery popup nor its label. -/
theorem teardown_leaves_popup (x : Extern) (w : World) (hf : w.tk.fresh)
    (hside : w.d.side_bar_ = none) :
    (destroy.final ((SetupUI x).final w)).tk.objs =
      w.tk.objs ++ [⟨w.tk.next + 10, w.tk.screen⟩, ⟨w.tk.next + 11, some (w.tk.next + 10)⟩] ∧
    ((SetupUI x).final w).d.low_battery_popup_ = some (w.tk.next + 10) := by
  obtain ⟨hobjs, hc, hsb, hct, hpop, hsd⟩ := SetupUI_objs x w
  refine ⟨?_, hpop⟩
  rw [destroy_objs, hobjs, hc, hsb, hct, hsd, hside]
  have hfresh := hf.1
  have hscr := hf.2
  rw [delTree_fresh w.tk.next _ _ _ hfresh (by simp [setupObjs]) (by omega),
    delTree_content _ _ hscr]
  rw [delTree_fresh w.tk.next _ _ _ hfresh (by simp) (by omega), delTree_status_bar _ _ hscr]
  rw [delTree_none]
  rw [delTree_fresh w.tk.next _ _ _ hfresh (by simp) (by omega), delTree_container _ _ hscr]

/-- No step of the destructor takes the lock. -/
theorem delIf_no_lock (h : Handle) (c : Handle → Call) (hc : isLock (c h) = false) :
    (delIf h c).countP isLock = 0 := by
  unfold delIf
  split
  · simp [List.countP_cons, hc]
  · rfl

/-- For every display whose content area is set (so for every display on which
`SetupUI` has run) the destructor never takes the lock and its first call, the
deletion of the content area, happens with the lock not held. -/
theorem destroy_unguarded (w : World) (h : w.d.content_ ≠ none) :
    (destroy.calls w).countP isLock = 0 ∧ guarded 0 (destroy.calls w) = false ∧
    (destroy.calls w).head? = some (.lv_obj_del w.d.content_) := by
  simp only [Op.calls, destroy_run, List.countP_append]
  refine ⟨?_, ?_, ?_⟩
  · simp [delIf_no_lock, isLock]
  · simp [delIf, h, guarded, mutatesWidget]
  · simp [delIf, h]

end LcdDisplay
